import Mathlib

/-!
Verification development for the Clang module dependency scanning bridge
(`lib/ClangImporter/ClangModuleDependencyScanner.cpp`).

The C++ source is shallowly embedded: every pure helper becomes a Lean
function over `List`/`String`, the stateful cache operations become explicit
state passing, fallible code (assertions, out-of-bounds accesses, scanner
failures) returns `Option`/`Except`, and external collaborators (the Clang
dependency scanner, Clang's `CompilerInvocation` round-trip API, the module
dependencies cache) are modelled as explicit parameters or, where only their
spec-level contract is available, as definitions marked "Modelled from the
spec".
-/

/- ------------------------------------------------------------------ -/
/- Generic list helpers used by the embedding                          -/
/- ------------------------------------------------------------------ -/

/-- Index of the last occurrence of `tgt` in a list, if any.  This embeds
`std::find(v.rbegin(), v.rend(), tgt)`: a reverse-iterator search locates the
last matching element; we record its forward index. -/
def lastOccIdx {α : Type} [DecidableEq α] : List α → α → Option Nat
  | [], _ => none
  | a :: as, tgt =>
    match lastOccIdx as tgt with
    | some i => some (i + 1)
    | none => if a = tgt then some 0 else none

/-- Boolean infix (contiguous subsequence) test; embeds
`std::string::find(pat) != npos`. -/
def isInfixList {α : Type} [DecidableEq α] : List α → List α → Bool
  | pat, [] => pat.isEmpty
  | pat, b :: rest => pat.isPrefixOf (b :: rest) || isInfixList pat rest

/-- String-level substring containment, via the underlying character lists. -/
def containsSub (pat s : String) : Bool :=
  isInfixList pat.data s.data

/-- Effectful map over a list in the `Option` monad, written out explicitly so
proofs can unfold it; embeds a loop whose body may hit a failing assertion. -/
def mapOpt {α β : Type} (f : α → Option β) : List α → Option (List β)
  | [] => some []
  | a :: as =>
    match f a with
    | none => none
    | some b =>
      match mapOpt f as with
      | none => none
      | some bs => some (b :: bs)

/-- A single-quote character (code point 39), kept out of string literals. -/
def squo : String := String.mk [Char.ofNat 39]

/- ------------------------------------------------------------------ -/
/- Model of the llvm::sys::path functions used by the source           -/
/- ------------------------------------------------------------------ -/

/-- Embeds `llvm::sys::path::append(path, component)` (POSIX style): no
separator is inserted when the path is empty, already ends in a separator, or
the component starts with one; otherwise a single `/` is inserted. -/
def pathAppendL (p c : List Char) : List Char :=
  if p.getLast? = some '/' then p ++ c
  else if c.head? = some '/' then p ++ c
  else if p = [] then c
  else p ++ '/' :: c

/-- Embeds `llvm::sys::path::filename` for POSIX paths whose last component is
nonempty (the only shape produced by this embedding): the suffix after the
last separator. -/
def fileNameOfL (s : List Char) : List Char :=
  match lastOccIdx s '/' with
  | none => s
  | some i => s.drop (i + 1)

/-- Length of the extension of a path (the suffix of its filename starting at
the last dot, dot included), 0 if there is none; embeds
`llvm::sys::path::extension`, which treats the filenames `.` and `..` as
having no extension. -/
def extensionLenL (s : List Char) : Nat :=
  let fname := fileNameOfL s
  if fname = ['.'] ∨ fname = ['.', '.'] then 0
  else
    match lastOccIdx fname '.' with
    | none => 0
    | some i => fname.length - i

/-- Embeds `llvm::sys::path::replace_extension`: strip the current extension
(dot included), then append a dot (unless the new extension already starts
with one or is empty) and the new extension. -/
def replaceExtensionL (s e : List Char) : List Char :=
  let base := s.take (s.length - extensionLenL s)
  if e = [] then base
  else if e.head? = some '.' then base ++ e
  else base ++ '.' :: e

/-- String-level wrapper for `pathAppendL`. -/
def pathAppend (p c : String) : String :=
  String.mk (pathAppendL p.data c.data)

/-- String-level wrapper for `replaceExtensionL`. -/
def replaceExtension (s e : String) : String :=
  String.mk (replaceExtensionL s.data e.data)

/- ------------------------------------------------------------------ -/
/- Output path resolution (moduleCacheRelativeLookupModuleOutput)      -/
/- ------------------------------------------------------------------ -/

/-- The file types used by the resolver. -/
inductive FileType : Type
  | TY_ClangModuleFile
  | TY_Dependencies
  | TY_SerializedDiagnostics
  deriving DecidableEq, Repr

/-- Modelled from the spec: `swift::file_types::getExtension` is not part of
the excerpted sources; the spec (§4.2) only requires a fixed canonical
extension per artifact type, which these are (Clang module file, make-style
dependency file, serialized diagnostics file). -/
def getExtension : FileType → String
  | .TY_ClangModuleFile => "pcm"
  | .TY_Dependencies => "d"
  | .TY_SerializedDiagnostics => "dia"

/-- Foreign module identity as reported by the scanner
(`clang::tooling::dependencies::ModuleID`). -/
structure ModuleID where
  ModuleName : String
  ContextHash : String
  deriving DecidableEq, Repr

/-- Requested output artifact kind
(`clang::tooling::dependencies::ModuleOutputKind`). -/
inductive ModuleOutputKind : Type
  | ModuleFile
  | DependencyFile
  | DependencyTargets
  | DiagnosticSerializationFile
  deriving DecidableEq, Repr

/-- Embeds `moduleCacheRelativeLookupModuleOutput` (source lines 38-60). -/
def moduleCacheRelativeLookupModuleOutput (MID : ModuleID)
    (MOK : ModuleOutputKind) (moduleCachePath : String) : String :=
  let outputPath :=
    pathAppend moduleCachePath (MID.ModuleName ++ "-" ++ MID.ContextHash)
  match MOK with
  | .ModuleFile =>
      replaceExtension outputPath (getExtension .TY_ClangModuleFile)
  | .DependencyFile =>
      replaceExtension outputPath (getExtension .TY_Dependencies)
  | .DependencyTargets => MID.ModuleName ++ "-" ++ MID.ContextHash
  | .DiagnosticSerializationFile =>
      replaceExtension outputPath (getExtension .TY_SerializedDiagnostics)

/- ------------------------------------------------------------------ -/
/- Compilation context (the slice of swift::ASTContext that is read)   -/
/- ------------------------------------------------------------------ -/

/-- One framework search path (`SearchPathOptions::FrameworkSearchPath`). -/
structure FrameworkSearchPath where
  Path : String
  IsSystem : Bool
  deriving DecidableEq, Repr

/-- The slice of `swift::SearchPathOptions` read by the scanner bridge. -/
structure SearchPathOptionsModel where
  FrameworkSearchPaths : List FrameworkSearchPath
  ImportSearchPaths : List String
  ScannerPrefixMapper : List String
  VFSOverlayFiles : List String
  deriving DecidableEq, Repr

/-- The slice of `swift::ASTContext` read by the scanner bridge.  The driver
argument list, CAS configuration flags, APINotes version string, module cache
path and current working directory come from external collaborators
(`ClangImporter::getClangDriverArguments`, `CASOptions`, `LangOptions`, the
Clang instance, the source manager's filesystem), none of which are part of
the excerpted sources; they are modelled from the spec as opaque context
inputs. -/
structure ASTContextModel where
  searchPathOpts : SearchPathOptionsModel
  clangDriverArguments : List String
  casConfigurationFlags : List String
  apiNotesVersion : String
  moduleCachePathFromClang : String
  currentWorkingDirectory : String
  deriving DecidableEq, Repr

/- ------------------------------------------------------------------ -/
/- Invocation argument construction                                    -/
/- ------------------------------------------------------------------ -/

/-- Embeds `addSearchPathInvocationArguments` (source lines 66-83). -/
def addSearchPathInvocationArguments (invocationArgStrs : List String)
    (ctx : ASTContextModel) : List String :=
  let afterFrameworks :=
    ctx.searchPathOpts.FrameworkSearchPaths.foldl
      (fun acc framepath =>
        acc ++ [if framepath.IsSystem then "-iframework" else "-F",
                framepath.Path])
      invocationArgStrs
  let afterImports :=
    ctx.searchPathOpts.ImportSearchPaths.foldl
      (fun acc path => acc ++ ["-I", path]) afterFrameworks
  ctx.searchPathOpts.ScannerPrefixMapper.foldl
    (fun acc arg => acc ++ ["-fdepscan-prefix-map=" ++ arg]) afterImports

/-- Embeds `getClangDepScanningInvocationArguments` (source lines 86-128).
`none` models a failed `assert` (sentinel absent, `-fmodule-format=` absent or
first, `-fsyntax-only` absent). -/
def getClangDepScanningInvocationArguments (ctx : ASTContextModel)
    (sourceFileName : Option String) : Option (List String) :=
  let commandLineArgs :=
    addSearchPathInvocationArguments ctx.clangDriverArguments ctx
  match commandLineArgs.findIdx? (· = "<swift-imported-modules>") with
  | none => none
  | some sourceFilePos =>
    let commandLineArgs :=
      match sourceFileName with
      | some f => commandLineArgs.set sourceFilePos f
      | none => commandLineArgs.eraseIdx sourceFilePos
    match commandLineArgs.findIdx?
        (fun arg => ("-fmodule-format=".data).isPrefixOf arg.data) with
    | none => none
    | some moduleFormatPos =>
      if moduleFormatPos = 0 then none
      else
        let commandLineArgs :=
          commandLineArgs.take (moduleFormatPos - 1) ++
            commandLineArgs.drop (moduleFormatPos + 1)
        match commandLineArgs.findIdx? (· = "-fsyntax-only") with
        | none => none
        | some syntaxOnlyPos =>
          some (commandLineArgs.set syntaxOnlyPos "-c" ++ ["-gmodules"])

/- ------------------------------------------------------------------ -/
/- Working-directory resolution (computeClangWorkingDirectory)         -/
/- ------------------------------------------------------------------ -/

/-- Outcome of `computeClangWorkingDirectory`.  `undefinedRead` marks the
control path on which the C++ dereferences a reverse iterator one past the
end of the argument vector (undefined behavior). -/
inductive WorkingDirResult : Type
  | ok (dir : String)
  | missingArgDiag
  | undefinedRead
  deriving DecidableEq, Repr

/-- Embeds `computeClangWorkingDirectory` (source lines 354-372).

The C++ searches with reverse iterators:
`pos = std::find(v.rbegin(), v.rend(), flag)`.  A reverse iterator is
identified by its base offset from `begin()`; a reverse iterator with base
offset `b` dereferences to element `b - 1`, and `rend()` has base offset `0`.
If the last occurrence of the flag is at forward index `i`, then `pos` has
base offset `i + 1`, so `pos - 1` has base offset `i + 2` and dereferences to
element `i + 1`.  The source guard `pos - 1 == v.rend()` therefore compares
base offset `i + 2` with `0`, and the subsequent `*(pos - 1)` reads element
`i + 1`, which is out of bounds exactly when the flag is the last element. -/
def computeClangWorkingDirectory (commandLineArgs : List String)
    (ctx : ASTContextModel) : WorkingDirResult :=
  match lastOccIdx commandLineArgs "-working-directory" with
  | none => .ok ctx.currentWorkingDirectory
  | some i =>
    if i + 2 = 0 then .missingArgDiag
    else
      match commandLineArgs.get? (i + 1) with
      | some dir => .ok dir
      | none => .undefinedRead

/- ------------------------------------------------------------------ -/
/- Foreign-invocation model (clang::CompilerInvocation, consumed)      -/
/- ------------------------------------------------------------------ -/

/-- The frontend action kinds the source mentions
(`clang::frontend::ActionKind`); only `GeneratePCH` is set explicitly, all
others are collapsed into `OtherAction`. -/
inductive ClangActionKind : Type
  | GeneratePCH
  | OtherAction
  deriving DecidableEq, Repr

/-- The slice of a parsed `clang::CompilerInvocation` the source reads or
writes: frontend options (`ModuleCacheKeys`, `PathPrefixMappings`,
`ProgramAction`, `OutputFile`) and header-search VFS overlay files. -/
structure CompilerInvocationModel where
  ModuleCacheKeys : List String
  PathPrefixMappings : List String
  ProgramAction : ClangActionKind
  OutputFile : String
  VFSOverlayFiles : List String
  deriving DecidableEq, Repr

/-- The foreign-invocation API consumed by the bridge (spec §6):
`clang::CompilerInvocation::CreateFromArgs` (parse, `none` on rejection) and
`CompilerInvocation::generateCC1CommandLine` (regenerate the low-level
argument list from the structured form).  Both are external collaborators;
theorems quantify over every possible behavior. -/
structure ClangAPIModel where
  createFromArgs : List String → Option CompilerInvocationModel
  generateCC1CommandLine : CompilerInvocationModel → List String

/-- Wraps each generated low-level argument with the host's
pass-to-Clang marker, as `addClangArg` does (source lines 157-160). -/
def xccWrap (args : List String) : List String :=
  args.flatMap (fun arg => ["-Xcc", arg])

/- ------------------------------------------------------------------ -/
/- Raw scanner output (clang::tooling::dependencies)                   -/
/- ------------------------------------------------------------------ -/

/-- One raw per-module entry of the scanner's module dependency graph
(`clang::tooling::dependencies::ModuleDeps`), restricted to the fields the
bridge reads. -/
structure ClangModuleDep where
  ID : ModuleID
  FileDeps : List String
  ClangModuleMapFile : String
  BuildArguments : List String
  CASFileSystemRootID : Option String
  IncludeTreeID : Option String
  ClangModuleDeps : List ModuleID
  deriving DecidableEq, Repr

/-- One command of a translation-unit scan result
(`clang::tooling::dependencies::Command`), restricted to its arguments. -/
structure TUCommand where
  Arguments : List String
  deriving DecidableEq, Repr

/-- Raw result of a translation-unit scan
(`clang::tooling::dependencies::TranslationUnitDeps`), restricted to the
fields the bridge reads. -/
structure TranslationUnitDeps where
  ModuleGraph : List ClangModuleDep
  Commands : List TUCommand
  FileDeps : List String
  ClangModuleDeps : List ModuleID
  IncludeTreeID : Option String
  CASFileSystemRootID : Option String
  deriving DecidableEq, Repr

/- ------------------------------------------------------------------ -/
/- Host dependency model (swift::ModuleDependencyInfo)                 -/
/- ------------------------------------------------------------------ -/

/-- Module dependency kinds relevant to the excerpted code
(`swift::ModuleDependencyKind`; the host enum has further cases that never
appear here). -/
inductive ModuleDependencyKind : Type
  | Clang
  | SwiftInterface
  | SwiftSource
  deriving DecidableEq, Repr

/-- Modelled from the spec (§3): `swift::ModuleDependencyID`, the unique key
of the dependency graph — a name plus a kind. -/
structure ModuleDependencyID where
  ModuleName : String
  Kind : ModuleDependencyKind
  deriving DecidableEq, Repr

/-- Modelled from the spec (§3): the bridging-header-specific payload of a
textual (interface or source) host module — bridging header path, bridging
source files, bridging module dependencies, bridging include-tree id, and
the bridging-header build command line.  `swift/AST/ModuleDependencies.h` is
not part of the excerpted sources. -/
structure TextualModuleDetails where
  bridgingHeaderFile : Option String
  bridgingSourceFiles : List String
  bridgingModuleDependencies : List String
  bridgingHeaderIncludeTree : Option String
  bridgingCommandLine : List String
  deriving DecidableEq, Repr

/-- Modelled from the spec (§3): the payload of a bridged foreign (Clang)
module record, mirroring the arguments of
`ModuleDependencyInfo::forClangModule`. -/
structure ClangModuleDetails where
  pcmOutputPath : String
  moduleMapFile : String
  contextHash : String
  buildCommandLine : List String
  capturedPCMArgs : List String
  CASFileSystemRootID : String
  CASClangIncludeTreeRootID : String
  moduleCacheKey : String
  deriving DecidableEq, Repr

/-- Modelled from the spec (§3, §9): kind-specific payload of a dependency
record, a tagged variant. -/
inductive ModuleDetails : Type
  | swiftInterface (textual : TextualModuleDetails)
  | swiftSource (textual : TextualModuleDetails)
  | clang (c : ClangModuleDetails)
  deriving DecidableEq, Repr

/-- Modelled from the spec (§3): per-module build recipe with common header
(imports, module-level dependency edges, file dependencies, resolved flag)
and kind-specific payload. -/
structure ModuleDependencyInfo where
  details : ModuleDetails
  moduleImports : List String
  moduleDependencies : List ModuleDependencyID
  fileDependencies : List String
  resolved : Bool
  deriving DecidableEq, Repr

/-- An ordered sequence of bridged records
(`swift::ModuleDependencyVector`). -/
abbrev ModuleDependencyVector : Type :=
  List (ModuleDependencyID × ModuleDependencyInfo)

/-- Modelled from the spec (§3): `ModuleDependencyInfo::forClangModule` —
a fresh, not yet resolved foreign-module record with no edges. -/
def ModuleDependencyInfo.forClangModule (pcmOutputPath moduleMapFile
    contextHash : String) (buildCommandLine fileDeps capturedPCMArgs :
    List String) (CASFileSystemRootID CASClangIncludeTreeRootID
    moduleCacheKey : String) : ModuleDependencyInfo :=
  { details := .clang
      { pcmOutputPath := pcmOutputPath
        moduleMapFile := moduleMapFile
        contextHash := contextHash
        buildCommandLine := buildCommandLine
        capturedPCMArgs := capturedPCMArgs
        CASFileSystemRootID := CASFileSystemRootID
        CASClangIncludeTreeRootID := CASClangIncludeTreeRootID
        moduleCacheKey := moduleCacheKey }
    moduleImports := []
    moduleDependencies := []
    fileDependencies := fileDeps
    resolved := false }

/-- Modelled from the spec (§3): `addModuleImport` with an already-added set —
records an import name once. -/
def ModuleDependencyInfo.addModuleImport (info : ModuleDependencyInfo)
    (moduleName : String) : ModuleDependencyInfo :=
  if info.moduleImports.contains moduleName then info
  else { info with moduleImports := info.moduleImports ++ [moduleName] }

/-- Modelled from the spec (§3): `addModuleDependency` — appends a
module-level dependency edge by identity. -/
def ModuleDependencyInfo.addModuleDependency (info : ModuleDependencyInfo)
    (id : ModuleDependencyID) : ModuleDependencyInfo :=
  { info with moduleDependencies := info.moduleDependencies ++ [id] }

/-- Modelled from the spec (§3): `setIsResolved`. -/
def ModuleDependencyInfo.setIsResolved (info : ModuleDependencyInfo)
    (b : Bool) : ModuleDependencyInfo :=
  { info with resolved := b }

/-- The textual payload of a host module, if it has one
(`getAsSwiftInterfaceModule` / `getAsSwiftSourceModule` combined; `none` for
foreign modules). -/
def ModuleDependencyInfo.textualDetails (info : ModuleDependencyInfo) :
    Option TextualModuleDetails :=
  match info.details with
  | .swiftInterface t => some t
  | .swiftSource t => some t
  | .clang _ => none

/-- Replaces the textual payload of a host module record, keeping the
variant; identity on foreign modules. -/
def ModuleDependencyInfo.withTextualDetails (info : ModuleDependencyInfo)
    (t : TextualModuleDetails) : ModuleDependencyInfo :=
  match info.details with
  | .swiftInterface _ => { info with details := .swiftInterface t }
  | .swiftSource _ => { info with details := .swiftSource t }
  | .clang c => { info with details := .clang c }

/-- Modelled from the spec (§4.5): `getBridgingHeader`. -/
def ModuleDependencyInfo.getBridgingHeader (info : ModuleDependencyInfo) :
    Option String :=
  match info.textualDetails with
  | some t => t.bridgingHeaderFile
  | none => none

/-- Modelled from the spec (§4.5): `addBridgingSourceFile` — appends one
file-level dependency of the bridging header. -/
def ModuleDependencyInfo.addBridgingSourceFile (info : ModuleDependencyInfo)
    (file : String) : ModuleDependencyInfo :=
  match info.textualDetails with
  | some t => info.withTextualDetails
      { t with bridgingSourceFiles := t.bridgingSourceFiles ++ [file] }
  | none => info

/-- Modelled from the spec (§4.5): `addBridgingModuleDependency` with an
already-added set — records a bridging module dependency name once. -/
def ModuleDependencyInfo.addBridgingModuleDependency
    (info : ModuleDependencyInfo) (moduleName : String) :
    ModuleDependencyInfo :=
  match info.textualDetails with
  | some t =>
    if t.bridgingModuleDependencies.contains moduleName then info
    else info.withTextualDetails
      { t with bridgingModuleDependencies :=
          t.bridgingModuleDependencies ++ [moduleName] }
  | none => info

/-- Modelled from the spec (§4.5): `addBridgingHeaderIncludeTree`. -/
def ModuleDependencyInfo.addBridgingHeaderIncludeTree
    (info : ModuleDependencyInfo) (tree : String) : ModuleDependencyInfo :=
  match info.textualDetails with
  | some t => info.withTextualDetails
      { t with bridgingHeaderIncludeTree := some tree }
  | none => info

/-- Modelled from the spec (§4.5): `updateBridgingHeaderCommandLine`. -/
def ModuleDependencyInfo.updateBridgingHeaderCommandLine
    (info : ModuleDependencyInfo) (args : List String) :
    ModuleDependencyInfo :=
  match info.textualDetails with
  | some t => info.withTextualDetails { t with bridgingCommandLine := args }
  | none => info

/-- The build command line of a bridged foreign-module record, if the record
is a foreign one. -/
def ModuleDependencyInfo.getBuildCommandLine (info : ModuleDependencyInfo) :
    Option (List String) :=
  match info.details with
  | .clang c => some c.buildCommandLine
  | _ => none

/- ------------------------------------------------------------------ -/
/- DependencyGraphBridge (ClangImporter::bridgeClangModuleDependencies)-/
/- ------------------------------------------------------------------ -/

/-- The invocation-wide captured PCM arguments (source lines 143-147). -/
def capturedPCMArgs (ctx : ASTContextModel) : List String :=
  ["-Xcc", "-fapinotes-swift-version=" ++ ctx.apiNotesVersion]

/-- Bridges one raw per-module entry, embedding one iteration of the loop in
`ClangImporter::bridgeClangModuleDependencies` (source lines 149-271).  The
host-facing argument list is assembled by successive appends mirroring the
`push_back` sequence of the source; `none` models the
`assert(success && ...)` on a failed invocation round trip. -/
def bridgeOneClangModuleDep (ctx : ASTContextModel) (api : ClangAPIModel)
    (remapPath : String → String) (moduleOutputPath : String)
    (clangModuleDep : ClangModuleDep) :
    Option (ModuleDependencyID × ModuleDependencyInfo) :=
  let fileDeps := clangModuleDep.FileDeps
  let swiftArgs : List String := []
  -- We are using Swift frontend mode.
  let swiftArgs := swiftArgs ++ ["-frontend"]
  -- Swift frontend action: -emit-pcm
  let swiftArgs := swiftArgs ++ ["-emit-pcm", "-module-name",
                                 clangModuleDep.ID.ModuleName]
  let pcmPath := moduleCacheRelativeLookupModuleOutput clangModuleDep.ID
    .ModuleFile moduleOutputPath
  let swiftArgs := swiftArgs ++ ["-o", pcmPath]
  -- Ensure that the resulting PCM build invocation uses the Clang frontend
  -- directly.
  let swiftArgs := swiftArgs ++ ["-direct-clang-cc1-module-build"]
  -- Swift frontend option for the input file path (Foo.modulemap).
  let swiftArgs := swiftArgs ++ [remapPath clangModuleDep.ClangModuleMapFile]
  -- Handle VFSOverlay.
  let swiftArgs :=
    if ctx.searchPathOpts.VFSOverlayFiles ≠ [] then
      ctx.searchPathOpts.VFSOverlayFiles.foldl
        (fun acc overlay => acc ++ ["-vfsoverlay", remapPath overlay])
        swiftArgs
    else swiftArgs
  -- Round-trip the Clang args to canonicalize them.
  match api.createFromArgs clangModuleDep.BuildArguments with
  | none => none
  | some depsInvocation =>
    -- Clear the cache key and prefix mappings for the module.
    let depsInvocation := { depsInvocation with
      ModuleCacheKeys := []
      PathPrefixMappings := [] }
    -- Find -ivfsoverlay options from the Clang scanner and pass them on.
    let swiftArgs :=
      depsInvocation.VFSOverlayFiles.foldl
        (fun acc overlay =>
          if ctx.searchPathOpts.VFSOverlayFiles.contains overlay then acc
          else acc ++ ["-vfsoverlay", overlay])
        swiftArgs
    let clangArgs := api.generateCC1CommandLine depsInvocation
    let swiftArgs := clangArgs.foldl
      (fun acc arg => acc ++ ["-Xcc", arg]) swiftArgs
    let RootID := clangModuleDep.CASFileSystemRootID.getD ""
    let IncludeTree := clangModuleDep.IncludeTreeID.getD ""
    let swiftArgs := ctx.casConfigurationFlags.foldl
      (fun acc arg => acc ++ [arg]) swiftArgs
    let swiftArgs :=
      if RootID ≠ "" then
        swiftArgs ++ ["-no-clang-include-tree", "-cas-fs", RootID]
      else swiftArgs
    let swiftArgs :=
      if IncludeTree ≠ "" then
        swiftArgs ++ ["-clang-include-tree-root", IncludeTree]
      else swiftArgs
    -- Module-level dependencies.
    let dependencies := ModuleDependencyInfo.forClangModule pcmPath
      clangModuleDep.ClangModuleMapFile clangModuleDep.ID.ContextHash
      swiftArgs fileDeps (capturedPCMArgs ctx) RootID IncludeTree ""
    let dependencies := clangModuleDep.ClangModuleDeps.foldl
      (fun acc moduleName =>
        -- It is safe to assume that all dependencies of a Clang module are
        -- Clang modules.
        (acc.addModuleImport moduleName.ModuleName).addModuleDependency
          ⟨moduleName.ModuleName, .Clang⟩)
      dependencies
    let dependencies := dependencies.setIsResolved true
    some (⟨clangModuleDep.ID.ModuleName, .Clang⟩, dependencies)

/-- Embeds `ClangImporter::bridgeClangModuleDependencies`
(source lines 130-273): bridge every raw entry in scanner emission order. -/
def bridgeClangModuleDependencies (ctx : ASTContextModel)
    (api : ClangAPIModel) (remapPath : String → String)
    (moduleOutputPath : String) (clangDependencies : List ClangModuleDep) :
    Option ModuleDependencyVector :=
  mapOpt (bridgeOneClangModuleDep ctx api remapPath moduleOutputPath)
    clangDependencies

/-- Follows the spec's words (§4.4 and claim C2), for refinement comparison
with `bridgeOneClangModuleDep`: the same blocks, but with the round-tripped
arguments placed *before* the scanner-reported overlay files. -/
def specOrderedBridgeArgs (ctx : ASTContextModel) (api : ClangAPIModel)
    (remapPath : String → String) (moduleOutputPath : String)
    (clangModuleDep : ClangModuleDep) : Option (List String) :=
  match api.createFromArgs clangModuleDep.BuildArguments with
  | none => none
  | some depsInvocation =>
    let depsInvocation := { depsInvocation with
      ModuleCacheKeys := []
      PathPrefixMappings := [] }
    let pcmPath := moduleCacheRelativeLookupModuleOutput clangModuleDep.ID
      .ModuleFile moduleOutputPath
    let RootID := clangModuleDep.CASFileSystemRootID.getD ""
    let IncludeTree := clangModuleDep.IncludeTreeID.getD ""
    some
      (["-frontend", "-emit-pcm", "-module-name",
        clangModuleDep.ID.ModuleName, "-o", pcmPath,
        "-direct-clang-cc1-module-build",
        remapPath clangModuleDep.ClangModuleMapFile]
       ++ ctx.searchPathOpts.VFSOverlayFiles.flatMap
            (fun overlay => ["-vfsoverlay", remapPath overlay])
       ++ xccWrap (api.generateCC1CommandLine depsInvocation)
       ++ (depsInvocation.VFSOverlayFiles.filter
            (fun overlay =>
              ¬ ctx.searchPathOpts.VFSOverlayFiles.contains overlay)).flatMap
            (fun overlay => ["-vfsoverlay", overlay])
       ++ ctx.casConfigurationFlags
       ++ (if RootID ≠ "" then
             ["-no-clang-include-tree", "-cas-fs", RootID]
           else [])
       ++ (if IncludeTree ≠ "" then
             ["-clang-include-tree-root", IncludeTree]
           else []))

/- ------------------------------------------------------------------ -/
/- recordBridgingHeaderOptions                                         -/
/- ------------------------------------------------------------------ -/

/-- Embeds `ClangImporter::recordBridgingHeaderOptions`
(source lines 275-346).  `none` models the unchecked `deps.Commands[0]`
access on an empty command list and the round-trip `assert`. -/
def recordBridgingHeaderOptions (ctx : ASTContextModel)
    (api : ClangAPIModel) (MDI : ModuleDependencyInfo)
    (deps : TranslationUnitDeps) : Option ModuleDependencyInfo :=
  match deps.Commands.head? with
  | none => none
  | some command =>
    match api.createFromArgs command.Arguments with
    | none => none
    | some depsInvocation =>
      let depsInvocation := { depsInvocation with
        ProgramAction := ClangActionKind.GeneratePCH
        ModuleCacheKeys := []
        PathPrefixMappings := []
        OutputFile := "" }
      let swiftArgs : List String := []
      -- We are using Swift frontend mode.
      let swiftArgs := swiftArgs ++ ["-frontend"]
      -- Swift frontend action: -emit-pch
      let swiftArgs := swiftArgs ++ ["-emit-pch"]
      let swiftArgs := swiftArgs ++ ["-direct-clang-cc1-module-build"]
      let clangArgs := api.generateCC1CommandLine depsInvocation
      let swiftArgs := clangArgs.foldl
        (fun acc arg => acc ++ ["-Xcc", arg]) swiftArgs
      let swiftArgs := ctx.casConfigurationFlags.foldl
        (fun acc arg => acc ++ [arg]) swiftArgs
      let swiftArgs :=
        match deps.IncludeTreeID with
        | some tree => swiftArgs ++ ["-clang-include-tree-root", tree]
        | none => swiftArgs
      let swiftArgs :=
        match deps.CASFileSystemRootID with
        | some casfs => swiftArgs ++ ["-no-clang-include-tree", "-cas-fs",
                                      casfs]
        | none => swiftArgs
      some (MDI.updateBridgingHeaderCommandLine swiftArgs)

/- ------------------------------------------------------------------ -/
/- Cache collaborator and scanner interface                            -/
/- ------------------------------------------------------------------ -/

/-- Modelled from the spec (§2, §6): the `ModuleDependenciesCache`
collaborator — an association of dependency records keyed by
`ModuleDependencyID`, the set of already-seen foreign modules, and the module
output path root. -/
structure ModuleDependenciesCache where
  entries : List (ModuleDependencyID × ModuleDependencyInfo)
  alreadySeenClangModules : List ModuleID
  moduleOutputPath : String
  deriving DecidableEq, Repr

/-- Modelled from the spec (§6): `findDependency`. -/
def ModuleDependenciesCache.findDependency
    (cache : ModuleDependenciesCache) (id : ModuleDependencyID) :
    Option ModuleDependencyInfo :=
  (cache.entries.find? (fun p => p.1 = id)).map (fun p => p.2)

/-- Modelled from the spec (§3, §6): `updateDependency` — replaces the record
stored under an identity already present in the cache. -/
def ModuleDependenciesCache.updateDependency
    (cache : ModuleDependenciesCache) (id : ModuleDependencyID)
    (info : ModuleDependencyInfo) : ModuleDependenciesCache :=
  { cache with entries :=
      cache.entries.map (fun p => if p.1 = id then (id, info) else p) }

/-- Modelled from the spec (§3, §6): `recordDependencies` — record each
bridged pair, last write winning for an identity already present. -/
def ModuleDependenciesCache.recordDependencies
    (cache : ModuleDependenciesCache) (vec : ModuleDependencyVector) :
    ModuleDependenciesCache :=
  vec.foldl
    (fun acc p =>
      match acc.findDependency p.1 with
      | some _ => acc.updateDependency p.1 p.2
      | none => { acc with entries := acc.entries ++ [p] })
    cache

/-- The external scanner interface (spec §6), consumed as a black box:
per-module mode and translation-unit mode, both taking the invocation
arguments, the working directory, the already-seen set, and the output-path
lookup callback, and returning either a raw result or an error string. -/
structure ScannerModel where
  getModuleDependencies : String → List String → String → List ModuleID →
    (ModuleID → ModuleOutputKind → String) → Except String (List ClangModuleDep)
  getTranslationUnitDependencies : List String → String → List ModuleID →
    (ModuleID → ModuleOutputKind → String) → Except String TranslationUnitDeps

/- ------------------------------------------------------------------ -/
/- ClangImporter::getModuleDependencies                                -/
/- ------------------------------------------------------------------ -/

/-- The diagnostic message emitted for a missing `-working-directory`
argument (with the single quotes written via `squo`). -/
def missingWorkingDirMsg : String :=
  "Missing " ++ squo ++ "-working-directory" ++ squo ++ " argument"

/-- The suppressed scanner error text for a module that was not found
(source lines 410-411). -/
def moduleNotFoundProbe (moduleName : String) : String :=
  "fatal error: module " ++ squo ++ moduleName ++ squo ++ " not found"

/-- Embeds `ClangImporter::getModuleDependencies` (source lines 374-423) in
state-free form: the result is the bridged dependency vector together with
the list of `clang_dependency_scan_error` diagnostics emitted, in order.
`none` models an assertion failure (invocation builder asserts, round-trip
assert) or the out-of-bounds read in working-directory resolution.  On the
missing-working-directory path the source diagnoses twice — once inside
`computeClangWorkingDirectory` and once at the call site. -/
def importerGetModuleDependencies (ctx : ASTContextModel)
    (api : ClangAPIModel) (scanner : ScannerModel) (moduleName : String)
    (moduleOutputPath : String) (alreadySeenClangModules : List ModuleID)
    (mapper : Option (String → String)) :
    Option (ModuleDependencyVector × List String) :=
  match getClangDepScanningInvocationArguments ctx none with
  | none => none
  | some commandLineArgs =>
    match computeClangWorkingDirectory commandLineArgs ctx with
    | .undefinedRead => none
    | .missingArgDiag =>
        some ([], [missingWorkingDirMsg, missingWorkingDirMsg])
    | .ok workingDir =>
      let lookupModuleOutput := fun MID MOK =>
        moduleCacheRelativeLookupModuleOutput MID MOK moduleOutputPath
      match scanner.getModuleDependencies moduleName commandLineArgs
          workingDir alreadySeenClangModules lookupModuleOutput with
      | .error errorStr =>
        -- We ignore the "module not found" error; the Swift dependency
        -- scanner reports it only if all module loaders fail as well.
        if containsSub (moduleNotFoundProbe moduleName) errorStr then
          some ([], [])
        else
          some ([], [errorStr])
      | .ok clangModuleDependencies =>
        let remap := fun path =>
          match mapper with
          | some m => m path
          | none => path
        match bridgeClangModuleDependencies ctx api remap moduleOutputPath
            clangModuleDependencies with
        | none => none
        | some v => some (v, [])

/- ------------------------------------------------------------------ -/
/- ClangImporter::addBridgingHeaderDependencies                        -/
/- ------------------------------------------------------------------ -/

/-- Embeds `ClangImporter::addBridgingHeaderDependencies`
(source lines 425-507) in state-passing form: the result is the returned
failure flag (`true` means failure, matching the source convention) together
with the updated cache.  `none` models an assertion failure
(`findDependency` miss, `llvm_unreachable` on a non-textual module kind,
dereferencing an absent bridging header, builder or round-trip asserts, the
out-of-bounds working-directory read, or the unchecked `Commands[0]`
access). -/
def addBridgingHeaderDependencies (ctx : ASTContextModel)
    (api : ClangAPIModel) (scanner : ScannerModel)
    (serviceRemap : String → String) (moduleID : ModuleDependencyID)
    (cache : ModuleDependenciesCache) :
    Option (Bool × ModuleDependenciesCache) :=
  match cache.findDependency moduleID with
  | none => none
  | some targetModule =>
    match targetModule.textualDetails with
    | none => none
    | some textualModuleDetails =>
      -- If we have already recorded bridging header dependencies, we are
      -- done.
      if textualModuleDetails.bridgingSourceFiles ≠ [] ∨
         textualModuleDetails.bridgingModuleDependencies ≠ [] then
        some (false, cache)
      else
        -- Retrieve the bridging header.
        match textualModuleDetails.bridgingHeaderFile with
        | none => none
        | some bridgingHeader =>
          match getClangDepScanningInvocationArguments ctx
              (some bridgingHeader) with
          | none => none
          | some commandLineArgs =>
            match computeClangWorkingDirectory commandLineArgs ctx with
            | .undefinedRead => none
            | .missingArgDiag => some (true, cache)
            | .ok workingDir =>
              let moduleCachePath := ctx.moduleCachePathFromClang
              let lookupModuleOutput := fun MID MOK =>
                moduleCacheRelativeLookupModuleOutput MID MOK moduleCachePath
              match scanner.getTranslationUnitDependencies commandLineArgs
                  workingDir cache.alreadySeenClangModules
                  lookupModuleOutput with
              | .error _ => some (true, cache)
              | .ok clangModuleDependencies =>
                -- Record module dependencies for each new module we found.
                match bridgeClangModuleDependencies ctx api serviceRemap
                    cache.moduleOutputPath
                    clangModuleDependencies.ModuleGraph with
                | none => none
                | some bridgedDeps =>
                  let cache := cache.recordDependencies bridgedDeps
                  -- Record dependencies for the source files the bridging
                  -- header includes.
                  let targetModule :=
                    clangModuleDependencies.FileDeps.foldl
                      ModuleDependencyInfo.addBridgingSourceFile targetModule
                  -- ... and all module dependencies.
                  let targetModule :=
                    clangModuleDependencies.ClangModuleDeps.foldl
                      (fun acc moduleDep =>
                        acc.addBridgingModuleDependency moduleDep.ModuleName)
                      targetModule
                  let targetModule :=
                    match clangModuleDependencies.IncludeTreeID with
                    | some tree =>
                        targetModule.addBridgingHeaderIncludeTree tree
                    | none => targetModule
                  match recordBridgingHeaderOptions ctx api targetModule
                      clangModuleDependencies with
                  | none => none
                  | some targetModule =>
                    -- Update the cache with the new information for the
                    -- module.
                    some (false,
                          cache.updateDependency moduleID targetModule)

/- ------------------------------------------------------------------ -/
/- Concrete instances used by witnesses and counterexamples            -/
/- ------------------------------------------------------------------ -/

/-- A representative host driver argument list: it contains the sentinel
placeholder, a `-fmodule-format=` pair and `-fsyntax-only`, as the builder's
assertions require. -/
def driverArgs0 : List String :=
  ["-x", "objective-c", "-Xclang", "-fmodule-format=obj", "-fsyntax-only",
   "<swift-imported-modules>"]

/-- A concrete compilation context with no search paths or overlays. -/
def ctx0 : ASTContextModel :=
  { searchPathOpts :=
      { FrameworkSearchPaths := []
        ImportSearchPaths := []
        ScannerPrefixMapper := []
        VFSOverlayFiles := [] }
    clangDriverArguments := driverArgs0
    casConfigurationFlags := []
    apiNotesVersion := "5"
    moduleCachePathFromClang := "/mcache"
    currentWorkingDirectory := "/cwd" }

/-- The scenario context of claim C6: one import search path, one system
framework search path. -/
def ctxC6 : ASTContextModel :=
  { ctx0 with searchPathOpts :=
      { FrameworkSearchPaths := [⟨"/Frameworks", true⟩]
        ImportSearchPaths := ["/usr/include/foo"]
        ScannerPrefixMapper := []
        VFSOverlayFiles := [] } }

/-- The C6 scenario context with a non-system framework path instead. -/
def ctxC6ns : ASTContextModel :=
  { ctx0 with searchPathOpts :=
      { FrameworkSearchPaths := [⟨"/Frameworks", false⟩]
        ImportSearchPaths := ["/usr/include/foo"]
        ScannerPrefixMapper := []
        VFSOverlayFiles := [] } }

/-- A concrete parsed invocation: nonempty cache keys and prefix mappings
(so that clearing them is observable) and one scanner-reported VFS overlay
file that is not in the host's (empty) overlay list. -/
def inv0 : CompilerInvocationModel :=
  { ModuleCacheKeys := ["key0"]
    PathPrefixMappings := ["pp0"]
    ProgramAction := .OtherAction
    OutputFile := "out0"
    VFSOverlayFiles := ["ov.yaml"] }

/-- A concrete foreign-invocation API: parsing always succeeds with `inv0`
and regeneration always produces one argument. -/
def api0 : ClangAPIModel :=
  { createFromArgs := fun _ => some inv0
    generateCC1CommandLine := fun _ => ["-cc1arg"] }

/-- A concrete raw per-module scanner entry with one file dependency and one
module-level dependency. -/
def dep0 : ClangModuleDep :=
  { ID := ⟨"M", "h"⟩
    FileDeps := ["f.h"]
    ClangModuleMapFile := "m.modulemap"
    BuildArguments := ["-b"]
    CASFileSystemRootID := none
    IncludeTreeID := none
    ClangModuleDeps := [⟨"D", "hd"⟩] }

/-- The identity remapper (no path-prefix-mapping policy active). -/
def remap0 : String → String := fun path => path

/-- A scanner that always fails with an unspecific error. -/
def scannerErr0 : ScannerModel :=
  { getModuleDependencies := fun _ _ _ _ _ => .error "boom"
    getTranslationUnitDependencies := fun _ _ _ _ => .error "boom" }

/-- A scanner failing with a module-not-found text that lacks the
`fatal error: ` prefix the source probes for. -/
def scannerNotFound0 : ScannerModel :=
  { getModuleDependencies := fun _ _ _ _ _ =>
      .error ("module " ++ squo ++ "Foo" ++ squo ++ " not found")
    getTranslationUnitDependencies := fun _ _ _ _ => .error "boom" }

/-- A host-source module record that already has a non-empty bridging
source-file list. -/
def tmA : ModuleDependencyInfo :=
  { details := .swiftSource
      { bridgingHeaderFile := some "Bridging.h"
        bridgingSourceFiles := ["x.h"]
        bridgingModuleDependencies := []
        bridgingHeaderIncludeTree := none
        bridgingCommandLine := [] }
    moduleImports := []
    moduleDependencies := []
    fileDependencies := []
    resolved := false }

/-- Identity of the host module of `tmA` / `tmB`. -/
def midA : ModuleDependencyID := ⟨"App", .SwiftSource⟩

/-- A cache holding `tmA`. -/
def cacheA : ModuleDependenciesCache :=
  { entries := [(midA, tmA)]
    alreadySeenClangModules := []
    moduleOutputPath := "/out" }

/-- A host-source module record with a bridging header and still-empty
bridging lists. -/
def tmB : ModuleDependencyInfo :=
  { details := .swiftSource
      { bridgingHeaderFile := some "Bridging.h"
        bridgingSourceFiles := []
        bridgingModuleDependencies := []
        bridgingHeaderIncludeTree := none
        bridgingCommandLine := [] }
    moduleImports := []
    moduleDependencies := []
    fileDependencies := []
    resolved := false }

/-- A cache holding `tmB`. -/
def cacheB : ModuleDependenciesCache :=
  { entries := [(midA, tmB)]
    alreadySeenClangModules := []
    moduleOutputPath := "/out" }

/-- A concrete raw translation-unit scan result for the bridging header of
`tmB`: one bridged module, one command, one file dependency. -/
def tudeps0 : TranslationUnitDeps :=
  { ModuleGraph := [dep0]
    Commands := [⟨["-tu"]⟩]
    FileDeps := ["Bridging.h"]
    ClangModuleDeps := [⟨"D", "hd"⟩]
    IncludeTreeID := none
    CASFileSystemRootID := none }

/-- A scanner whose translation-unit mode succeeds with `tudeps0`. -/
def scannerTU0 : ScannerModel :=
  { getModuleDependencies := fun _ _ _ _ _ => .error "boom"
    getTranslationUnitDependencies := fun _ _ _ _ => .ok tudeps0 }

/-- The invocation arguments produced for scanning `Bridging.h` under
`ctx0`. -/
def cmdArgsB : List String :=
  ["-x", "objective-c", "-c", "Bridging.h", "-gmodules"]

/-- The bridged vector for the module graph of `tudeps0` under `ctx0`. -/
def bridged0 : ModuleDependencyVector :=
  (bridgeClangModuleDependencies ctx0 api0 remap0 "/out" [dep0]).getD []

/-- The cache produced by the first (scanning) call of
`addBridgingHeaderDependencies` on `cacheB`. -/
def cacheB1 : ModuleDependenciesCache :=
  match addBridgingHeaderDependencies ctx0 api0 scannerTU0 remap0 midA
      cacheB with
  | some p => p.2
  | none => cacheB

/-- The first (and only) record of `bridged0`. -/
def bridged0Head : ModuleDependencyID × ModuleDependencyInfo :=
  match bridged0 with
  | p :: _ => p
  | [] => (⟨"", .Clang⟩,
           ModuleDependencyInfo.forClangModule "" "" "" [] [] [] "" "" "")

/- ------------------------------------------------------------------ -/
/- Helper lemmas                                                       -/
/- ------------------------------------------------------------------ -/

theorem lastOccIdx_append_some {α : Type} [DecidableEq α] (xs ys : List α)
    (t : α) (j : Nat) (h : lastOccIdx ys t = some j) :
    lastOccIdx (xs ++ ys) t = some (xs.length + j) := by
  induction xs with
  | nil => simpa using h
  | cons a as ih =>
    show lastOccIdx (a :: (as ++ ys)) t = _
    simp only [lastOccIdx, ih, List.length_cons]
    congr 1
    omega

theorem lastOccIdx_append_none {α : Type} [DecidableEq α] (xs ys : List α)
    (t : α) (h : lastOccIdx ys t = none) :
    lastOccIdx (xs ++ ys) t = lastOccIdx xs t := by
  induction xs with
  | nil => simpa using h
  | cons a as ih =>
    show lastOccIdx (a :: (as ++ ys)) t = _
    simp only [lastOccIdx, ih]

theorem lastOccIdx_of_not_mem {α : Type} [DecidableEq α] {l : List α}
    {t : α} (h : t ∉ l) : lastOccIdx l t = none := by
  induction l with
  | nil => rfl
  | cons a as ih =>
    simp only [List.mem_cons, not_or] at h
    have hat : ¬(a = t) := fun hh => h.1 hh.symm
    simp only [lastOccIdx, ih h.2, if_neg hat]

theorem lastOccIdx_concat {α : Type} [DecidableEq α] (l : List α) (c : α) :
    lastOccIdx (l ++ [c]) c = some l.length := by
  have h1 : lastOccIdx [c] c = some 0 := by simp [lastOccIdx]
  simpa using lastOccIdx_append_some l [c] c 0 h1

theorem get?_append_add {α : Type} (xs ys : List α) (n : Nat) :
    (xs ++ ys).get? (xs.length + n) = ys.get? n := by
  induction xs with
  | nil => simp
  | cons a as ih =>
    have harith : (a :: as).length + n = (as.length + n) + 1 := by
      simp [List.length_cons]
      omega
    rw [harith]
    simpa using ih

/-- The working-directory resolver returns the element following the last
flag occurrence whenever that occurrence is not the final element. -/
theorem computeWD_append_flag_dir (xs : List String) (d : String)
    (ctx : ASTContextModel) (hd : d ≠ "-working-directory") :
    computeClangWorkingDirectory (xs ++ ["-working-directory", d]) ctx =
      .ok d := by
  have h1 : lastOccIdx ["-working-directory", d] "-working-directory"
      = some 0 := by
    simp [lastOccIdx, hd]
  have h2 := lastOccIdx_append_some xs _ _ 0 h1
  have h3 : (xs ++ ["-working-directory", d]).get? (xs.length + 1)
      = some d := by
    have := get?_append_add xs ["-working-directory", d] 1
    simpa using this
  simp only [computeClangWorkingDirectory, h2, Nat.add_zero]
  rw [if_neg (by omega)]
  simp only [h3]

/- ------------------------------------------------------------------ -/
/- Claim theorems                                                      -/
/- ------------------------------------------------------------------ -/

/-- C1: working-directory resolution.  The claim says that when the flag is
the last element the function emits a diagnosable error, returns no value and
does not read past the end of the list.  The code disagrees: its guard
compares the reverse iterator `pos - 1` (base offset `i + 2`) with `rend()`
(base offset `0`), which is never true, so with the flag last the code
dereferences one past the end of the vector.  This theorem evaluates the
embedding: with the flag last (its diagnosable-error case per the claim) the
out-of-bounds read is reached, while the flag-followed-by-argument and
flag-absent cases behave as claimed. -/
theorem c1_working_directory_resolution :
    computeClangWorkingDirectory ["-working-directory"] ctx0 =
      .undefinedRead ∧
    computeClangWorkingDirectory ["-a", "-working-directory"] ctx0 =
      .undefinedRead ∧
    computeClangWorkingDirectory ["-working-directory", "/tmp/build"] ctx0 =
      .ok "/tmp/build" ∧
    computeClangWorkingDirectory ["-a"] ctx0 =
      .ok ctx0.currentWorkingDirectory := by
  refine ⟨by decide, by decide, by decide, by decide⟩

/-- C10: when `-working-directory` occurs more than once, the reverse search
finds the last occurrence, so the later flag overrides any earlier one. -/
theorem c10_last_occurrence_wins (ctx : ASTContextModel)
    (ys zs : List String) (d1 d2 : String)
    (hd : d2 ≠ "-working-directory") :
    computeClangWorkingDirectory
      (ys ++ ["-working-directory", d1] ++ zs ++ ["-working-directory", d2])
      ctx = .ok d2 :=
  computeWD_append_flag_dir (ys ++ ["-working-directory", d1] ++ zs) d2 ctx
    hd

/-- Witness for C10 at a concrete argument list with two occurrences. -/
theorem c10_last_occurrence_wins_witness :
    ("/tmp/build" : String) ≠ "-working-directory" ∧
    computeClangWorkingDirectory
      (["-a"] ++ ["-working-directory", "/first"] ++ ["-b"] ++
        ["-working-directory", "/tmp/build"]) ctx0 = .ok "/tmp/build" :=
  ⟨by decide,
   c10_last_occurrence_wins ctx0 ["-a"] ["-b"] "/first" "/tmp/build"
     (by decide)⟩

/-- C6: the invocation builder scenario.  Under the C6 context (import search
path `/usr/include/foo`, system framework path `/Frameworks`) and source file
`Input.h`, the produced list contains the `-I` pair, the `-iframework` pair
and `Input.h` at the sentinel's position, with the `-fmodule-format=` pair
removed and `-fsyntax-only` replaced by `-c`; with no source file the
sentinel is erased; with a non-system framework path `-F` is used instead. -/
theorem c6_invocation_builder_scenario :
    getClangDepScanningInvocationArguments ctxC6 (some "Input.h") =
      some ["-x", "objective-c", "-c", "Input.h", "-iframework",
            "/Frameworks", "-I", "/usr/include/foo", "-gmodules"] ∧
    getClangDepScanningInvocationArguments ctxC6 none =
      some ["-x", "objective-c", "-c", "-iframework", "/Frameworks", "-I",
            "/usr/include/foo", "-gmodules"] ∧
    getClangDepScanningInvocationArguments ctxC6ns (some "Input.h") =
      some ["-x", "objective-c", "-c", "Input.h", "-F", "/Frameworks", "-I",
            "/usr/include/foo", "-gmodules"] := by
  refine ⟨by decide, by decide, by decide⟩

/- ------------------------------------------------------------------ -/
/- Path lemmas for the output-path resolver                            -/
/- ------------------------------------------------------------------ -/

theorem fileNameOfL_sep_append (r base : List Char) (hs : '/' ∉ base) :
    fileNameOfL ((r ++ ['/']) ++ base) = base := by
  have h1 : lastOccIdx ((r ++ ['/']) ++ base) '/' = some r.length := by
    rw [lastOccIdx_append_none _ _ _ (lastOccIdx_of_not_mem hs)]
    exact lastOccIdx_concat r '/'
  have h2 : r.length + 1 = (r ++ ['/']).length := by simp
  simp only [fileNameOfL, h1, h2, List.drop_left]

theorem fileNameOfL_pathAppendL (r base : List Char) (hb : base ≠ [])
    (hs : '/' ∉ base) : fileNameOfL (pathAppendL r base) = base := by
  have hhead : base.head? ≠ some '/' := by
    cases base with
    | nil => simp
    | cons x xs =>
      have hx : x ≠ '/' := fun e => hs (e ▸ List.mem_cons_self x xs)
      simp [hx]
  unfold pathAppendL
  by_cases h1 : r.getLast? = some '/'
  · rw [if_pos h1]
    have hrne : r ≠ [] := by
      intro e
      rw [e] at h1
      simp at h1
    have hgl : r.getLast hrne = '/' := by
      have hq := List.getLast?_eq_getLast r hrne
      rw [hq] at h1
      exact Option.some.inj h1
    have hdec : r.dropLast ++ ['/'] = r := by
      have h2 := List.dropLast_append_getLast hrne
      rw [hgl] at h2
      exact h2
    rw [← hdec]
    exact fileNameOfL_sep_append _ _ hs
  · rw [if_neg h1, if_neg hhead]
    by_cases h3 : r = []
    · rw [if_pos h3]
      simp only [fileNameOfL, lastOccIdx_of_not_mem hs]
    · rw [if_neg h3]
      have hshape : r ++ '/' :: base = (r ++ ['/']) ++ base := by simp
      rw [hshape]
      exact fileNameOfL_sep_append _ _ hs

theorem extensionLenL_eq_zero {s : List Char} (h : '.' ∉ fileNameOfL s) :
    extensionLenL s = 0 := by
  have h1 : ¬(fileNameOfL s = ['.'] ∨ fileNameOfL s = ['.', '.']) := by
    rintro (e | e) <;> rw [e] at h <;> simp at h
  simp only [extensionLenL, if_neg h1, lastOccIdx_of_not_mem h]

theorem replaceExtensionL_no_ext {s e : List Char}
    (h : extensionLenL s = 0) (he : e ≠ []) (hd : e.head? ≠ some '.') :
    replaceExtensionL s e = s ++ '.' :: e := by
  simp only [replaceExtensionL, h, Nat.sub_zero, List.take_length,
    if_neg he, if_neg hd]

theorem str_data_append (a b : String) : (a ++ b).data = a.data ++ b.data :=
  rfl

theorem str_eq_of_data {a b : String} (h : a.data = b.data) : a = b := by
  cases a
  cases b
  exact congrArg String.mk h

/-- C5: the output-path resolver builds `cacheRoot/name-contextHash` and
replaces its extension with the canonical extension of the requested
artifact kind for `ModuleFile`, `DependencyFile` and
`DiagnosticSerializationFile` (for identities whose parts contain no dot or
separator, the fresh path has no extension, so this is appending
`.<extension>`), while `DependencyTargets` yields the bare
`name-contextHash` string regardless of the cache root. -/
theorem c5_output_path_resolver (name hash root : String)
    (h1 : '.' ∉ name.data) (h2 : '/' ∉ name.data)
    (h3 : '.' ∉ hash.data) (h4 : '/' ∉ hash.data) :
    moduleCacheRelativeLookupModuleOutput ⟨name, hash⟩ .ModuleFile root =
      pathAppend root (name ++ "-" ++ hash) ++ "." ++
        getExtension .TY_ClangModuleFile ∧
    moduleCacheRelativeLookupModuleOutput ⟨name, hash⟩ .DependencyFile root =
      pathAppend root (name ++ "-" ++ hash) ++ "." ++
        getExtension .TY_Dependencies ∧
    moduleCacheRelativeLookupModuleOutput ⟨name, hash⟩
        .DiagnosticSerializationFile root =
      pathAppend root (name ++ "-" ++ hash) ++ "." ++
        getExtension .TY_SerializedDiagnostics ∧
    moduleCacheRelativeLookupModuleOutput ⟨name, hash⟩
        .DependencyTargets root = name ++ "-" ++ hash := by
  have hbdata : (name ++ "-" ++ hash).data = name.data ++ '-' :: hash.data := by
    rw [str_data_append, str_data_append]
    have hdash : ("-" : String).data = ['-'] := rfl
    rw [hdash, List.append_assoc]
    rfl
  have hbne : (name ++ "-" ++ hash).data ≠ [] := by
    rw [hbdata]
    simp
  have hnd : '.' ∉ (name ++ "-" ++ hash).data := by
    rw [hbdata]
    simp only [List.mem_append, List.mem_cons]
    rintro (h | h | h)
    · exact h1 h
    · exact absurd h (by decide)
    · exact h3 h
  have hns : '/' ∉ (name ++ "-" ++ hash).data := by
    rw [hbdata]
    simp only [List.mem_append, List.mem_cons]
    rintro (h | h | h)
    · exact h2 h
    · exact absurd h (by decide)
    · exact h4 h
  have hfn := fileNameOfL_pathAppendL root.data (name ++ "-" ++ hash).data
    hbne hns
  have hz : extensionLenL (pathAppendL root.data
      (name ++ "-" ++ hash).data) = 0 :=
    extensionLenL_eq_zero (by rw [hfn]; exact hnd)
  have key : ∀ e : String, e.data ≠ [] → e.data.head? ≠ some '.' →
      replaceExtension (pathAppend root (name ++ "-" ++ hash)) e =
        pathAppend root (name ++ "-" ++ hash) ++ "." ++ e := by
    intro e he hd
    apply str_eq_of_data
    show replaceExtensionL (pathAppendL root.data
      (name ++ "-" ++ hash).data) e.data = _
    rw [replaceExtensionL_no_ext hz he hd]
    show pathAppendL root.data (name ++ "-" ++ hash).data ++ '.' :: e.data =
      (pathAppendL root.data (name ++ "-" ++ hash).data ++ ['.']) ++ e.data
    rw [List.append_assoc]
    rfl
  exact ⟨key _ (by decide) (by decide), key _ (by decide) (by decide),
         key _ (by decide) (by decide), rfl⟩

/-- Witness for C5 at the spec's scenario identity. -/
theorem c5_output_path_resolver_witness :
    moduleCacheRelativeLookupModuleOutput ⟨"Foo", "abc123"⟩
        .DependencyTargets "/cache" = "Foo-abc123" ∧
    moduleCacheRelativeLookupModuleOutput ⟨"Foo", "abc123"⟩
        .ModuleFile "/cache" =
      pathAppend "/cache" ("Foo" ++ "-" ++ "abc123") ++ "." ++
        getExtension .TY_ClangModuleFile :=
  ⟨(c5_output_path_resolver "Foo" "abc123" "/cache" (by decide) (by decide)
      (by decide) (by decide)).2.2.2,
   (c5_output_path_resolver "Foo" "abc123" "/cache" (by decide) (by decide)
      (by decide) (by decide)).1⟩

/- ------------------------------------------------------------------ -/
/- Fold lemmas for the argument-assembly loops                         -/
/- ------------------------------------------------------------------ -/

theorem foldl_append_flatMap {α β : Type} (l : List α) (f : α → List β)
    (acc : List β) :
    l.foldl (fun a x => a ++ f x) acc = acc ++ l.flatMap f := by
  induction l generalizing acc with
  | nil => simp
  | cons x xs ih => simp [ih, List.append_assoc]

theorem foldl_append_singleton {α : Type} (l : List α) (acc : List α) :
    l.foldl (fun a x => a ++ [x]) acc = acc ++ l := by
  induction l generalizing acc with
  | nil => simp
  | cons x xs ih => simp [ih]

theorem foldl_filter_append_flatMap {α β : Type} (l : List α)
    (q : α → Bool) (f : α → List β) (acc : List β) :
    l.foldl (fun a x => if q x then a else a ++ f x) acc =
      acc ++ (l.filter (fun x => !q x)).flatMap f := by
  induction l generalizing acc with
  | nil => simp
  | cons x xs ih =>
    cases hq : q x <;> simp [hq, ih, List.append_assoc]

theorem ite_foldl_append_flatMap {α β : Type} [DecidableEq α]
    (l : List α) (f : α → List β) (acc : List β) :
    (if l ≠ [] then l.foldl (fun a x => a ++ f x) acc else acc) =
      acc ++ l.flatMap f := by
  by_cases h : l = []
  · simp [h]
  · simp [h, foldl_append_flatMap]

theorem mapOpt_mem {α β : Type} {f : α → Option β} {l : List α}
    {r : List β} (h : mapOpt f l = some r) :
    ∀ b ∈ r, ∃ a ∈ l, f a = some b := by
  induction l generalizing r with
  | nil =>
    simp only [mapOpt, Option.some.injEq] at h
    subst h
    simp
  | cons a as ih =>
    simp only [mapOpt] at h
    cases hfa : f a with
    | none => rw [hfa] at h; cases h
    | some b0 =>
      rw [hfa] at h
      cases hrec : mapOpt f as with
      | none => rw [hrec] at h; cases h
      | some bs =>
        rw [hrec] at h
        simp only [Option.some.injEq] at h
        subst h
        intro b hb
        rcases List.mem_cons.mp hb with hb | hb
        · exact ⟨a, List.mem_cons_self _ _, hb ▸ hfa⟩
        · rcases ih hrec b hb with ⟨a', ha', hfa'⟩
          exact ⟨a', List.mem_cons_of_mem _ ha', hfa'⟩

/- ------------------------------------------------------------------ -/
/- Structure lemmas about one bridged record                           -/
/- ------------------------------------------------------------------ -/

theorem details_bridge_fold (names : List ModuleID)
    (init : ModuleDependencyInfo) :
    (names.foldl
      (fun acc m => (acc.addModuleImport m.ModuleName).addModuleDependency
        ⟨m.ModuleName, .Clang⟩) init).details = init.details := by
  induction names generalizing init with
  | nil => rfl
  | cons m ms ih =>
    rw [List.foldl_cons, ih]
    unfold ModuleDependencyInfo.addModuleImport
      ModuleDependencyInfo.addModuleDependency
    by_cases hc : m.ModuleName ∈ init.moduleImports <;> simp [hc]

theorem moduleDeps_bridge_fold (names : List ModuleID)
    (init : ModuleDependencyInfo) :
    (names.foldl
      (fun acc m => (acc.addModuleImport m.ModuleName).addModuleDependency
        ⟨m.ModuleName, .Clang⟩) init).moduleDependencies =
      init.moduleDependencies ++
        names.map (fun m => (⟨m.ModuleName, .Clang⟩ : ModuleDependencyID)) := by
  induction names generalizing init with
  | nil => simp
  | cons m ms ih =>
    rw [List.foldl_cons, ih]
    unfold ModuleDependencyInfo.addModuleImport
      ModuleDependencyInfo.addModuleDependency
    by_cases hc : m.ModuleName ∈ init.moduleImports <;>
      simp [hc, List.append_assoc]

theorem flatMap_singleton_id {α : Type} (l : List α) :
    l.flatMap (fun x => [x]) = l := by
  induction l with
  | nil => rfl
  | cons a as ih => simp [ih]

theorem ite_append_flatMap {α β : Type} [DecidableEq α] (l : List α)
    (f : α → List β) (acc : List β) :
    (if l ≠ [] then acc ++ l.flatMap f else acc) = acc ++ l.flatMap f := by
  by_cases h : l = [] <;> simp [h]

theorem getBuildCommandLine_eq (info : ModuleDependencyInfo)
    (c : ClangModuleDetails) (h : info.details = .clang c) :
    info.getBuildCommandLine = some c.buildCommandLine := by
  unfold ModuleDependencyInfo.getBuildCommandLine
  rw [h]

theorem getBuildCommandLine_bridge_chain (names : List ModuleID)
    (pcm mm chash : String) (args fileDeps cap : List String)
    (root tree : String) :
    ((names.foldl
        (fun acc moduleName =>
          (acc.addModuleImport moduleName.ModuleName).addModuleDependency
            ⟨moduleName.ModuleName, .Clang⟩)
        (ModuleDependencyInfo.forClangModule pcm mm chash args fileDeps cap
          root tree "")).setIsResolved true).getBuildCommandLine =
      some args := by
  have hd := details_bridge_fold names
    (ModuleDependencyInfo.forClangModule pcm mm chash args fileDeps cap
      root tree "")
  simp only [ModuleDependencyInfo.forClangModule] at hd
  simp only [ModuleDependencyInfo.getBuildCommandLine,
    ModuleDependencyInfo.setIsResolved, ModuleDependencyInfo.forClangModule,
    hd]

/-- The host-facing argument list of one bridged record, in the order the
code assembles it: frontend mode, artifact emission, module name, output
path, direct-cc1 flag, remapped module map, host VFS overlays,
scanner-reported overlays not in the host list, the round-tripped arguments
wrapped in `-Xcc`, CAS configuration flags, then the CAS-root and
include-tree blocks. -/
theorem bridgeOne_commandLine (ctx : ASTContextModel) (api : ClangAPIModel)
    (remapPath : String → String) (moduleOutputPath : String)
    (dep : ClangModuleDep) (inv : CompilerInvocationModel)
    (h : api.createFromArgs dep.BuildArguments = some inv) :
    (bridgeOneClangModuleDep ctx api remapPath moduleOutputPath dep).map
        (fun p => (p.1, p.2.getBuildCommandLine)) =
      some ((⟨dep.ID.ModuleName, .Clang⟩ : ModuleDependencyID),
        some
          (["-frontend", "-emit-pcm", "-module-name", dep.ID.ModuleName,
            "-o", moduleCacheRelativeLookupModuleOutput dep.ID .ModuleFile
              moduleOutputPath,
            "-direct-clang-cc1-module-build",
            remapPath dep.ClangModuleMapFile]
           ++ ctx.searchPathOpts.VFSOverlayFiles.flatMap
                (fun overlay => ["-vfsoverlay", remapPath overlay])
           ++ (inv.VFSOverlayFiles.filter
                (fun overlay =>
                  !(ctx.searchPathOpts.VFSOverlayFiles.contains
                    overlay))).flatMap
                (fun overlay => ["-vfsoverlay", overlay])
           ++ xccWrap (api.generateCC1CommandLine
                { inv with ModuleCacheKeys := [], PathPrefixMappings := [] })
           ++ ctx.casConfigurationFlags
           ++ (if dep.CASFileSystemRootID.getD "" ≠ "" then
                 ["-no-clang-include-tree", "-cas-fs",
                  dep.CASFileSystemRootID.getD ""]
               else [])
           ++ (if dep.IncludeTreeID.getD "" ≠ "" then
                 ["-clang-include-tree-root", dep.IncludeTreeID.getD ""]
               else []))) := by
  simp only [bridgeOneClangModuleDep, h, Option.map_some', Option.some.injEq,
    Prod.mk.injEq]
  refine ⟨trivial, ?_⟩
  rw [getBuildCommandLine_bridge_chain]
  simp only [Option.some.injEq]
  simp only [ite_foldl_append_flatMap, ite_append_flatMap,
    foldl_filter_append_flatMap, foldl_append_flatMap]
  by_cases hcas : dep.CASFileSystemRootID.getD "" = "" <;>
  by_cases htree : dep.IncludeTreeID.getD "" = "" <;>
    simp [hcas, htree, xccWrap, flatMap_singleton_id, List.append_assoc]

theorem xccWrap_cons (a : String) (as : List String) :
    xccWrap (a :: as) = "-Xcc" :: a :: xccWrap as := rfl

theorem xccWrap_get? (l : List String) (k : Nat) (hk : k < l.length) :
    (xccWrap l).get? (2 * k) = some "-Xcc" ∧
    (xccWrap l).get? (2 * k + 1) = l.get? k := by
  induction l generalizing k with
  | nil => simp at hk
  | cons a as ih =>
    cases k with
    | zero => exact ⟨rfl, rfl⟩
    | succ k' =>
      have hk' : k' < as.length := by
        simp only [List.length_cons] at hk
        omega
      have harith : 2 * (k' + 1) = 2 * k' + 1 + 1 := by omega
      rw [xccWrap_cons, harith]
      simpa using ih k' hk'

/-- C2 (amended): for every raw per-module entry bridged after a successful
round trip, the produced host-facing argument list is exactly: frontend-mode
flag, artifact-emission flag, module name, output path, the
cache-coherent-build flag, the remapped module-definition path, the host's
own VFS-overlay flags, then scanner-reported overlay files not already in
the host's overlay list, then the round-tripped canonicalized arguments,
then CAS configuration flags and, when present, the CAS-root and
include-tree identifiers. -/
theorem c2_bridged_argument_order (ctx : ASTContextModel)
    (api : ClangAPIModel) (remapPath : String → String)
    (moduleOutputPath : String) (dep : ClangModuleDep)
    (inv : CompilerInvocationModel)
    (h : api.createFromArgs dep.BuildArguments = some inv) :
    (bridgeOneClangModuleDep ctx api remapPath moduleOutputPath dep).map
        (fun p => (p.1, p.2.getBuildCommandLine)) =
      some ((⟨dep.ID.ModuleName, .Clang⟩ : ModuleDependencyID),
        some
          (["-frontend", "-emit-pcm", "-module-name", dep.ID.ModuleName,
            "-o", moduleCacheRelativeLookupModuleOutput dep.ID .ModuleFile
              moduleOutputPath,
            "-direct-clang-cc1-module-build",
            remapPath dep.ClangModuleMapFile]
           ++ ctx.searchPathOpts.VFSOverlayFiles.flatMap
                (fun overlay => ["-vfsoverlay", remapPath overlay])
           ++ (inv.VFSOverlayFiles.filter
                (fun overlay =>
                  !(ctx.searchPathOpts.VFSOverlayFiles.contains
                    overlay))).flatMap
                (fun overlay => ["-vfsoverlay", overlay])
           ++ xccWrap (api.generateCC1CommandLine
                { inv with ModuleCacheKeys := [], PathPrefixMappings := [] })
           ++ ctx.casConfigurationFlags
           ++ (if dep.CASFileSystemRootID.getD "" ≠ "" then
                 ["-no-clang-include-tree", "-cas-fs",
                  dep.CASFileSystemRootID.getD ""]
               else [])
           ++ (if dep.IncludeTreeID.getD "" ≠ "" then
                 ["-clang-include-tree-root", dep.IncludeTreeID.getD ""]
               else []))) :=
  bridgeOne_commandLine ctx api remapPath moduleOutputPath dep inv h

/-- Witness for C2 (amended) at the concrete bridge instance. -/
theorem c2_bridged_argument_order_witness :
    (bridgeOneClangModuleDep ctx0 api0 remap0 "/out" dep0).map
        (fun p => (p.1, p.2.getBuildCommandLine)) =
      some ((⟨dep0.ID.ModuleName, .Clang⟩ : ModuleDependencyID),
        some
          (["-frontend", "-emit-pcm", "-module-name", dep0.ID.ModuleName,
            "-o", moduleCacheRelativeLookupModuleOutput dep0.ID .ModuleFile
              "/out",
            "-direct-clang-cc1-module-build",
            remap0 dep0.ClangModuleMapFile]
           ++ ctx0.searchPathOpts.VFSOverlayFiles.flatMap
                (fun overlay => ["-vfsoverlay", remap0 overlay])
           ++ (inv0.VFSOverlayFiles.filter
                (fun overlay =>
                  !(ctx0.searchPathOpts.VFSOverlayFiles.contains
                    overlay))).flatMap
                (fun overlay => ["-vfsoverlay", overlay])
           ++ xccWrap (api0.generateCC1CommandLine
                { inv0 with ModuleCacheKeys := [], PathPrefixMappings := [] })
           ++ ctx0.casConfigurationFlags
           ++ (if dep0.CASFileSystemRootID.getD "" ≠ "" then
                 ["-no-clang-include-tree", "-cas-fs",
                  dep0.CASFileSystemRootID.getD ""]
               else [])
           ++ (if dep0.IncludeTreeID.getD "" ≠ "" then
                 ["-clang-include-tree-root", dep0.IncludeTreeID.getD ""]
               else []))) :=
  c2_bridged_argument_order ctx0 api0 remap0 "/out" dep0 inv0 rfl

/-- Counterexample for C2 as stated: at a concrete bridge instance with one
scanner-reported overlay and one round-tripped argument, the code places the
scanner-reported overlay pair *before* the round-tripped `-Xcc` pair, while
the claim's order (embedded verbatim as `specOrderedBridgeArgs`) places the
round-tripped arguments first; the two lists differ. -/
theorem c2_bridged_argument_order_counterexample :
    (bridgeOneClangModuleDep ctx0 api0 remap0 "/out" dep0).map
        (fun p => p.2.getBuildCommandLine) =
      some (some ["-frontend", "-emit-pcm", "-module-name", "M", "-o",
        "/out/M-h.pcm", "-direct-clang-cc1-module-build", "m.modulemap",
        "-vfsoverlay", "ov.yaml", "-Xcc", "-cc1arg"]) ∧
    specOrderedBridgeArgs ctx0 api0 remap0 "/out" dep0 =
      some ["-frontend", "-emit-pcm", "-module-name", "M", "-o",
        "/out/M-h.pcm", "-direct-clang-cc1-module-build", "m.modulemap",
        "-Xcc", "-cc1arg", "-vfsoverlay", "ov.yaml"] ∧
    (["-frontend", "-emit-pcm", "-module-name", "M", "-o",
      "/out/M-h.pcm", "-direct-clang-cc1-module-build", "m.modulemap",
      "-vfsoverlay", "ov.yaml", "-Xcc", "-cc1arg"] : List String) ≠
      ["-frontend", "-emit-pcm", "-module-name", "M", "-o",
       "/out/M-h.pcm", "-direct-clang-cc1-module-build", "m.modulemap",
       "-Xcc", "-cc1arg", "-vfsoverlay", "ov.yaml"] := by
  refine ⟨by decide, by decide, by decide⟩

/-- C9: after a successful reparse, the cache-key and path-prefix-mapping
fields of the structured invocation are cleared before the low-level
argument list is regenerated (the regeneration is applied to the invocation
with both fields `[]`, in both the per-module bridge and the
bridging-header variant), and every regenerated argument is immediately
preceded by `-Xcc` in the output. -/
theorem c9_roundtrip_clear_and_xcc :
    (∀ (ctx : ASTContextModel) (api : ClangAPIModel)
       (remapPath : String → String) (moduleOutputPath : String)
       (dep : ClangModuleDep) (inv : CompilerInvocationModel),
       api.createFromArgs dep.BuildArguments = some inv →
       ∃ pre post,
         (bridgeOneClangModuleDep ctx api remapPath moduleOutputPath
             dep).map (fun p => p.2.getBuildCommandLine) =
           some (some (pre ++
             xccWrap (api.generateCC1CommandLine
               { inv with ModuleCacheKeys := [], PathPrefixMappings := [] })
             ++ post))) ∧
    (∀ (ctx : ASTContextModel) (api : ClangAPIModel)
       (MDI : ModuleDependencyInfo) (deps : TranslationUnitDeps)
       (cmd : TUCommand) (inv : CompilerInvocationModel),
       deps.Commands.head? = some cmd →
       api.createFromArgs cmd.Arguments = some inv →
       recordBridgingHeaderOptions ctx api MDI deps =
         some (MDI.updateBridgingHeaderCommandLine
           (["-frontend", "-emit-pch", "-direct-clang-cc1-module-build"]
            ++ xccWrap (api.generateCC1CommandLine
                 { inv with ProgramAction := .GeneratePCH,
                            ModuleCacheKeys := [], PathPrefixMappings := [],
                            OutputFile := "" })
            ++ ctx.casConfigurationFlags
            ++ (match deps.IncludeTreeID with
                | some tree => ["-clang-include-tree-root", tree]
                | none => [])
            ++ (match deps.CASFileSystemRootID with
                | some casfs => ["-no-clang-include-tree", "-cas-fs", casfs]
                | none => [])))) ∧
    (∀ (l : List String) (k : Nat), k < l.length →
       (xccWrap l).get? (2 * k) = some "-Xcc" ∧
       (xccWrap l).get? (2 * k + 1) = l.get? k) := by
  refine ⟨?_, ?_, fun l k hk => xccWrap_get? l k hk⟩
  · intro ctx api remapPath moduleOutputPath dep inv h
    refine ⟨["-frontend", "-emit-pcm", "-module-name", dep.ID.ModuleName,
        "-o", moduleCacheRelativeLookupModuleOutput dep.ID .ModuleFile
          moduleOutputPath,
        "-direct-clang-cc1-module-build", remapPath dep.ClangModuleMapFile]
       ++ ctx.searchPathOpts.VFSOverlayFiles.flatMap
            (fun overlay => ["-vfsoverlay", remapPath overlay])
       ++ (inv.VFSOverlayFiles.filter
            (fun overlay =>
              !(ctx.searchPathOpts.VFSOverlayFiles.contains
                overlay))).flatMap
            (fun overlay => ["-vfsoverlay", overlay]),
      ctx.casConfigurationFlags
       ++ (if dep.CASFileSystemRootID.getD "" ≠ "" then
             ["-no-clang-include-tree", "-cas-fs",
              dep.CASFileSystemRootID.getD ""]
           else [])
       ++ (if dep.IncludeTreeID.getD "" ≠ "" then
             ["-clang-include-tree-root", dep.IncludeTreeID.getD ""]
           else []), ?_⟩
    have h2 := bridgeOne_commandLine ctx api remapPath moduleOutputPath dep
      inv h
    cases hb : bridgeOneClangModuleDep ctx api remapPath moduleOutputPath
        dep with
    | none => rw [hb] at h2; simp at h2
    | some p =>
      rw [hb] at h2
      simp only [Option.map_some', Option.some.injEq, Prod.mk.injEq] at h2
      simp only [Option.map_some', h2.2, Option.some.injEq]
      simp [List.append_assoc]
  · intro ctx api MDI deps cmd inv hcmd hparse
    simp only [recordBridgingHeaderOptions, hcmd, hparse,
      foldl_append_flatMap, foldl_append_singleton, Option.some.injEq]
    cases deps.IncludeTreeID <;> cases deps.CASFileSystemRootID <;>
      simp [xccWrap, List.append_assoc]

theorem bridgeOne_resolved_inv (ctx : ASTContextModel) (api : ClangAPIModel)
    (remapPath : String → String) (moduleOutputPath : String)
    (dep : ClangModuleDep) (p : ModuleDependencyID × ModuleDependencyInfo)
    (h : bridgeOneClangModuleDep ctx api remapPath moduleOutputPath dep =
      some p) :
    p.1 = ⟨dep.ID.ModuleName, .Clang⟩ ∧ p.2.resolved = true ∧
    p.2.moduleDependencies = dep.ClangModuleDeps.map
      (fun m => (⟨m.ModuleName, .Clang⟩ : ModuleDependencyID)) := by
  cases hc : api.createFromArgs dep.BuildArguments with
  | none => simp [bridgeOneClangModuleDep, hc] at h
  | some inv =>
    simp only [bridgeOneClangModuleDep, hc, Option.some.injEq] at h
    subst h
    refine ⟨rfl, rfl, ?_⟩
    simp only [ModuleDependencyInfo.setIsResolved]
    rw [moduleDeps_bridge_fold]
    simp [ModuleDependencyInfo.forClangModule]

/-- C7: every record produced by the bridge (for any raw graph, in
particular one with no module-to-module edges) is marked resolved, its
module-level dependency edges are exactly the entry's direct dependencies
(all added before the resolved flag is observed), and every such edge is
tagged with the foreign-module (Clang) kind. -/
theorem c7_bridge_records_resolved (ctx : ASTContextModel)
    (api : ClangAPIModel) (remapPath : String → String)
    (moduleOutputPath : String) (clangDependencies : List ClangModuleDep)
    (result : ModuleDependencyVector)
    (h : bridgeClangModuleDependencies ctx api remapPath moduleOutputPath
      clangDependencies = some result) :
    ∀ p ∈ result, p.2.resolved = true ∧
      (∀ d ∈ p.2.moduleDependencies, d.Kind = .Clang) ∧
      ∃ dep ∈ clangDependencies,
        p.1 = ⟨dep.ID.ModuleName, .Clang⟩ ∧
        p.2.moduleDependencies = dep.ClangModuleDeps.map
          (fun m => (⟨m.ModuleName, .Clang⟩ : ModuleDependencyID)) := by
  intro p hp
  obtain ⟨dep, hdep, hbr⟩ := mapOpt_mem h p hp
  obtain ⟨h1, h2, h3⟩ := bridgeOne_resolved_inv ctx api remapPath
    moduleOutputPath dep p hbr
  refine ⟨h2, ?_, dep, hdep, h1, h3⟩
  intro d hd
  rw [h3] at hd
  obtain ⟨m, hm, rfl⟩ := List.mem_map.mp hd
  rfl

/-- Witness for C7 at the concrete single-entry graph. -/
theorem c7_bridge_records_resolved_witness :
    bridged0Head.2.resolved = true ∧
    bridged0Head.2.moduleDependencies =
      [(⟨"D", ModuleDependencyKind.Clang⟩ : ModuleDependencyID)] := by
  have h := c7_bridge_records_resolved ctx0 api0 remap0 "/out" [dep0]
    bridged0 (by decide) bridged0Head (by decide)
  obtain ⟨hres, hkind, dep, hdep, hid, hmap⟩ := h
  have hdep0 : dep = dep0 := by simpa using hdep
  subst hdep0
  refine ⟨hres, ?_⟩
  rw [hmap]
  decide

/-- Witness for C9 at the concrete bridge instance and a one-argument
regenerated list. -/
theorem c9_roundtrip_clear_and_xcc_witness :
    (∃ pre post,
      (bridgeOneClangModuleDep ctx0 api0 remap0 "/out" dep0).map
          (fun p => p.2.getBuildCommandLine) =
        some (some (pre ++
          xccWrap (api0.generateCC1CommandLine
            { inv0 with ModuleCacheKeys := [], PathPrefixMappings := [] })
          ++ post))) ∧
    (xccWrap ["-cc1arg"]).get? 0 = some "-Xcc" :=
  ⟨c9_roundtrip_clear_and_xcc.1 ctx0 api0 remap0 "/out" dep0 inv0 rfl,
   (c9_roundtrip_clear_and_xcc.2.2 ["-cc1arg"] 0 (by decide)).1⟩

/- ------------------------------------------------------------------ -/
/- Cache lemmas                                                        -/
/- ------------------------------------------------------------------ -/

theorem find?_map_update_eq
    (entries : List (ModuleDependencyID × ModuleDependencyInfo))
    (id : ModuleDependencyID) (info : ModuleDependencyInfo)
    (h : (entries.find? (fun p => p.1 = id)).isSome) :
    (entries.map (fun p => if p.1 = id then (id, info) else p)).find?
      (fun p => p.1 = id) = some (id, info) := by
  induction entries with
  | nil => simp at h
  | cons q qs ih =>
    by_cases hq : q.1 = id
    · rw [List.map_cons, if_pos hq]
      exact List.find?_cons_of_pos _ (by simp)
    · rw [List.map_cons, if_neg hq]
      rw [List.find?_cons_of_neg _ (by simp [hq])]
      apply ih
      rw [List.find?_cons_of_neg _ (by simp [hq])] at h
      exact h

theorem find?_isSome_map_update
    (entries : List (ModuleDependencyID × ModuleDependencyInfo))
    (id idu : ModuleDependencyID) (infou : ModuleDependencyInfo)
    (h : (entries.find? (fun p => p.1 = id)).isSome) :
    ((entries.map (fun p => if p.1 = idu then (idu, infou) else p)).find?
      (fun p => p.1 = id)).isSome := by
  induction entries with
  | nil => simp at h
  | cons q qs ih =>
    by_cases hq : q.1 = id
    · rw [List.map_cons]
      by_cases hqu : q.1 = idu
      · rw [if_pos hqu]
        have hid : idu = id := hqu ▸ hq
        rw [List.find?_cons_of_pos _ (by simp [hid])]
        simp
      · rw [if_neg hqu]
        rw [List.find?_cons_of_pos _ (by simp [hq])]
        simp
    · rw [List.map_cons]
      have hstep : ((if q.1 = idu then (idu, infou) else q).1 = id) → False := by
        by_cases hqu : q.1 = idu
        · rw [if_pos hqu]
          intro e
          exact hq (hqu.trans e)
        · rw [if_neg hqu]
          exact hq
      rw [List.find?_cons_of_neg _ (by simp; exact fun e => hstep e)]
      apply ih
      rw [List.find?_cons_of_neg _ (by simp [hq])] at h
      exact h

theorem find?_isSome_append_left
    (l1 l2 : List (ModuleDependencyID × ModuleDependencyInfo))
    (q : ModuleDependencyID × ModuleDependencyInfo → Bool)
    (h : (l1.find? q).isSome) : ((l1 ++ l2).find? q).isSome := by
  induction l1 with
  | nil => simp at h
  | cons a as ih =>
    cases hq : q a with
    | true =>
      rw [List.cons_append, List.find?_cons_of_pos _ hq]
      simp
    | false =>
      rw [List.cons_append, List.find?_cons_of_neg _ (by simp [hq])]
      apply ih
      rw [List.find?_cons_of_neg _ (by simp [hq])] at h
      exact h

theorem findDependency_isSome_record (cache : ModuleDependenciesCache)
    (vec : ModuleDependencyVector) (id : ModuleDependencyID)
    (h : (cache.findDependency id).isSome) :
    ((cache.recordDependencies vec).findDependency id).isSome := by
  induction vec generalizing cache with
  | nil => exact h
  | cons p ps ih =>
    show ((ModuleDependenciesCache.recordDependencies _ ps).findDependency
      id).isSome
    apply ih
    simp only [ModuleDependenciesCache.findDependency, Option.isSome_map'] at h ⊢
    cases hf : ModuleDependenciesCache.findDependency cache p.1 with
    | some v =>
      simp only [ModuleDependenciesCache.findDependency] at hf
      simp only [hf]
      exact find?_isSome_map_update _ _ _ _ h
    | none =>
      simp only [ModuleDependenciesCache.findDependency] at hf
      simp only [hf]
      exact find?_isSome_append_left _ _ _ h

theorem findDependency_update_eq (cache : ModuleDependenciesCache)
    (id : ModuleDependencyID) (info : ModuleDependencyInfo)
    (h : (cache.findDependency id).isSome) :
    (cache.updateDependency id info).findDependency id = some info := by
  simp only [ModuleDependenciesCache.findDependency,
    ModuleDependenciesCache.updateDependency, Option.isSome_map'] at h ⊢
  rw [find?_map_update_eq _ _ _ h]
  rfl

/-- C4: atomicity on scan failure.  When the external scanner returns an
error, `getModuleDependencies` returns an empty dependency vector (it takes
no cache and so cannot mutate one), and `addBridgingHeaderDependencies`
returns the failure value `true` with the cache returned exactly as it was
passed in — no record added or updated. -/
theorem c4_scan_failure_atomicity :
    (∀ (ctx : ASTContextModel) (api : ClangAPIModel) (scanner : ScannerModel)
       (name moduleOutputPath : String) (seen : List ModuleID)
       (mapper : Option (String → String)) (cmdArgs : List String)
       (wd e : String),
       getClangDepScanningInvocationArguments ctx none = some cmdArgs →
       computeClangWorkingDirectory cmdArgs ctx = .ok wd →
       scanner.getModuleDependencies name cmdArgs wd seen
         (fun MID MOK =>
           moduleCacheRelativeLookupModuleOutput MID MOK moduleOutputPath) =
         .error e →
       (importerGetModuleDependencies ctx api scanner name moduleOutputPath
          seen mapper).map Prod.fst = some ([] : ModuleDependencyVector)) ∧
    (∀ (ctx : ASTContextModel) (api : ClangAPIModel) (scanner : ScannerModel)
       (serviceRemap : String → String) (mid : ModuleDependencyID)
       (cache : ModuleDependenciesCache) (tm : ModuleDependencyInfo)
       (t : TextualModuleDetails) (hdr : String) (cmdArgs : List String)
       (wd e : String),
       cache.findDependency mid = some tm →
       tm.textualDetails = some t →
       t.bridgingSourceFiles = [] →
       t.bridgingModuleDependencies = [] →
       t.bridgingHeaderFile = some hdr →
       getClangDepScanningInvocationArguments ctx (some hdr) =
         some cmdArgs →
       computeClangWorkingDirectory cmdArgs ctx = .ok wd →
       scanner.getTranslationUnitDependencies cmdArgs wd
         cache.alreadySeenClangModules
         (fun MID MOK => moduleCacheRelativeLookupModuleOutput MID MOK
           ctx.moduleCachePathFromClang) = .error e →
       addBridgingHeaderDependencies ctx api scanner serviceRemap mid cache =
         some (true, cache)) := by
  constructor
  · intro ctx api scanner name moduleOutputPath seen mapper cmdArgs wd e h1
      h2 h3
    simp only [importerGetModuleDependencies, h1, h2, h3]
    by_cases hc : containsSub (moduleNotFoundProbe name) e = true <;>
      simp [hc]
  · intro ctx api scanner serviceRemap mid cache tm t hdr cmdArgs wd e h1 h2
      h3 h4 h5 h6 h7 h8
    simp only [addBridgingHeaderDependencies, h1, h2, h3, h4, h5, h6, h7, h8,
      ne_eq, not_true_eq_false, or_self, if_false]

/-- Witness for C4 at a concrete failing scanner. -/
theorem c4_scan_failure_atomicity_witness :
    (importerGetModuleDependencies ctx0 api0 scannerErr0 "Foo" "/out" []
       none).map Prod.fst = some ([] : ModuleDependencyVector) ∧
    addBridgingHeaderDependencies ctx0 api0 scannerErr0 remap0 midA cacheB =
      some (true, cacheB) :=
  ⟨c4_scan_failure_atomicity.1 ctx0 api0 scannerErr0 "Foo" "/out" [] none
     ["-x", "objective-c", "-c", "-gmodules"] "/cwd" "boom" (by decide)
     (by decide) rfl,
   c4_scan_failure_atomicity.2 ctx0 api0 scannerErr0 remap0 midA cacheB tmB
     { bridgingHeaderFile := some "Bridging.h"
       bridgingSourceFiles := []
       bridgingModuleDependencies := []
       bridgingHeaderIncludeTree := none
       bridgingCommandLine := [] }
     "Bridging.h" cmdArgsB "/cwd" "boom" (by decide) (by decide) (by decide)
     (by decide) (by decide) (by decide) (by decide) rfl⟩

/-- C8 (amended): for every scanner error, the error string is emitted
through the `clang_dependency_scan_error` diagnostic if and only if it does
not contain the `fatal error: module '<name>' not found` text for the
requested module (the probe includes the `fatal error: ` prefix); in both
cases the returned dependency vector is empty. -/
theorem c8_scanner_error_filtering (ctx : ASTContextModel)
    (api : ClangAPIModel) (scanner : ScannerModel)
    (name moduleOutputPath : String) (seen : List ModuleID)
    (mapper : Option (String → String)) (cmdArgs : List String)
    (wd e : String)
    (h1 : getClangDepScanningInvocationArguments ctx none = some cmdArgs)
    (h2 : computeClangWorkingDirectory cmdArgs ctx = .ok wd)
    (h3 : scanner.getModuleDependencies name cmdArgs wd seen
      (fun MID MOK =>
        moduleCacheRelativeLookupModuleOutput MID MOK moduleOutputPath) =
      .error e) :
    (importerGetModuleDependencies ctx api scanner name moduleOutputPath
       seen mapper = some ([], [e]) ↔
     containsSub (moduleNotFoundProbe name) e = false) ∧
    (importerGetModuleDependencies ctx api scanner name moduleOutputPath
       seen mapper = some ([], []) ↔
     containsSub (moduleNotFoundProbe name) e = true) := by
  simp only [importerGetModuleDependencies, h1, h2, h3]
  by_cases hc : containsSub (moduleNotFoundProbe name) e = true <;>
    simp [hc]

/-- Witness for C8 (amended): a generic error is emitted verbatim. -/
theorem c8_scanner_error_filtering_witness :
    importerGetModuleDependencies ctx0 api0 scannerErr0 "Foo" "/out" []
      none = some ([], ["boom"]) :=
  (c8_scanner_error_filtering ctx0 api0 scannerErr0 "Foo" "/out" [] none
     ["-x", "objective-c", "-c", "-gmodules"] "/cwd" "boom" (by decide)
     (by decide) rfl).1.mpr (by decide)

/-- Counterexample for C8 as stated: the claim's iff uses the
`module '<name>' not found` text, but the code probes for the longer
`fatal error: module '<name>' not found` string.  For the error string
`module 'Foo' not found` — which does contain the claim's probe, so the
claim says it must be suppressed — the code emits the diagnostic. -/
theorem c8_scanner_error_filtering_counterexample :
    importerGetModuleDependencies ctx0 api0 scannerNotFound0 "Foo" "/out" []
      none =
      some ([], ["module " ++ squo ++ "Foo" ++ squo ++ " not found"]) ∧
    containsSub ("module " ++ squo ++ "Foo" ++ squo ++ " not found")
      ("module " ++ squo ++ "Foo" ++ squo ++ " not found") = true := by
  refine ⟨by decide, by decide⟩

/- ------------------------------------------------------------------ -/
/- Textual-details tracking lemmas                                     -/
/- ------------------------------------------------------------------ -/

theorem textualDetails_withTextualDetails (info : ModuleDependencyInfo)
    (t t' : TextualModuleDetails) (h : info.textualDetails = some t) :
    (info.withTextualDetails t').textualDetails = some t' := by
  cases hd : info.details with
  | swiftInterface u =>
    simp [ModuleDependencyInfo.withTextualDetails,
      ModuleDependencyInfo.textualDetails, hd]
  | swiftSource u =>
    simp [ModuleDependencyInfo.withTextualDetails,
      ModuleDependencyInfo.textualDetails, hd]
  | clang c =>
    simp [ModuleDependencyInfo.textualDetails, hd] at h

theorem textualDetails_addBridgingSourceFile (info : ModuleDependencyInfo)
    (t : TextualModuleDetails) (f : String)
    (h : info.textualDetails = some t) :
    (info.addBridgingSourceFile f).textualDetails =
      some { t with bridgingSourceFiles := t.bridgingSourceFiles ++ [f] } := by
  unfold ModuleDependencyInfo.addBridgingSourceFile
  rw [h]
  exact textualDetails_withTextualDetails info t _ h

theorem textualDetails_fold_addBridgingSourceFile (files : List String)
    (info : ModuleDependencyInfo) (t : TextualModuleDetails)
    (h : info.textualDetails = some t) :
    (files.foldl ModuleDependencyInfo.addBridgingSourceFile
        info).textualDetails =
      some { t with bridgingSourceFiles := t.bridgingSourceFiles ++ files } := by
  induction files generalizing info t with
  | nil => simpa using h
  | cons f fs ih =>
    rw [List.foldl_cons]
    have h1 := textualDetails_addBridgingSourceFile info t f h
    rw [ih _ _ h1]
    simp [List.append_assoc]

theorem textualDetails_addBridgingModuleDependency_src
    (info : ModuleDependencyInfo) (t : TextualModuleDetails) (n : String)
    (h : info.textualDetails = some t) :
    ∃ t', (info.addBridgingModuleDependency n).textualDetails = some t' ∧
      t'.bridgingSourceFiles = t.bridgingSourceFiles := by
  unfold ModuleDependencyInfo.addBridgingModuleDependency
  simp only [h]
  by_cases hc : t.bridgingModuleDependencies.contains n = true
  · rw [if_pos hc]
    exact ⟨t, h, rfl⟩
  · rw [if_neg hc]
    exact ⟨_, textualDetails_withTextualDetails info t _ h, rfl⟩

theorem textualDetails_fold_addBridgingModuleDependency_src
    (names : List ModuleID) (info : ModuleDependencyInfo)
    (t : TextualModuleDetails) (h : info.textualDetails = some t) :
    ∃ t', ((names.foldl
        (fun acc moduleDep =>
          acc.addBridgingModuleDependency moduleDep.ModuleName)
        info).textualDetails) = some t' ∧
      t'.bridgingSourceFiles = t.bridgingSourceFiles := by
  induction names generalizing info t with
  | nil => exact ⟨t, h, rfl⟩
  | cons m ms ih =>
    rw [List.foldl_cons]
    obtain ⟨t1, ht1, ht1src⟩ :=
      textualDetails_addBridgingModuleDependency_src info t m.ModuleName h
    obtain ⟨t2, ht2, ht2src⟩ := ih _ _ ht1
    exact ⟨t2, ht2, ht2src.trans ht1src⟩

theorem textualDetails_addBridgingHeaderIncludeTree_src
    (info : ModuleDependencyInfo) (t : TextualModuleDetails) (tree : String)
    (h : info.textualDetails = some t) :
    ∃ t', ((info.addBridgingHeaderIncludeTree tree).textualDetails) =
        some t' ∧
      t'.bridgingSourceFiles = t.bridgingSourceFiles := by
  unfold ModuleDependencyInfo.addBridgingHeaderIncludeTree
  rw [h]
  exact ⟨_, textualDetails_withTextualDetails info t _ h, rfl⟩

theorem textualDetails_updateBridgingHeaderCommandLine_src
    (info : ModuleDependencyInfo) (t : TextualModuleDetails)
    (args : List String) (h : info.textualDetails = some t) :
    ∃ t', ((info.updateBridgingHeaderCommandLine args).textualDetails) =
        some t' ∧
      t'.bridgingSourceFiles = t.bridgingSourceFiles := by
  unfold ModuleDependencyInfo.updateBridgingHeaderCommandLine
  rw [h]
  exact ⟨_, textualDetails_withTextualDetails info t _ h, rfl⟩

/-- The early-return guard of `addBridgingHeaderDependencies`: a target
module whose record already has a non-empty bridging list makes the call
return success with the cache untouched, for every scanner. -/
theorem addBridging_early_return (ctx : ASTContextModel)
    (api : ClangAPIModel) (scanner : ScannerModel)
    (serviceRemap : String → String) (mid : ModuleDependencyID)
    (cache : ModuleDependenciesCache) (tm : ModuleDependencyInfo)
    (t : TextualModuleDetails) (h1 : cache.findDependency mid = some tm)
    (h2 : tm.textualDetails = some t)
    (h3 : t.bridgingSourceFiles ≠ [] ∨ t.bridgingModuleDependencies ≠ []) :
    addBridgingHeaderDependencies ctx api scanner serviceRemap mid cache =
      some (false, cache) := by
  simp only [addBridgingHeaderDependencies, h1, h2]
  rw [if_pos h3]

theorem textualDetails_addBridgingHeaderIncludeTree_eq
    (info : ModuleDependencyInfo) (t : TextualModuleDetails) (tree : String)
    (h : info.textualDetails = some t) :
    (info.addBridgingHeaderIncludeTree tree).textualDetails =
      some { t with bridgingHeaderIncludeTree := some tree } := by
  unfold ModuleDependencyInfo.addBridgingHeaderIncludeTree
  simp only [h]
  exact textualDetails_withTextualDetails info t _ h

theorem textualDetails_updateBridgingHeaderCommandLine_eq
    (info : ModuleDependencyInfo) (t : TextualModuleDetails)
    (args : List String) (h : info.textualDetails = some t) :
    (info.updateBridgingHeaderCommandLine args).textualDetails =
      some { t with bridgingCommandLine := args } := by
  unfold ModuleDependencyInfo.updateBridgingHeaderCommandLine
  simp only [h]
  exact textualDetails_withTextualDetails info t _ h

/-- C3: BridgingHeaderExtender idempotence.  First conjunct: for every host
module whose cached record already has a non-empty bridging source-file or
bridging module-dependency list, the call returns the success value `false`
immediately, with the cache unchanged, for every scanner (so the external
scanner's behavior is irrelevant).  Second conjunct: after a successful
first call that scanned a bridging header reporting at least one file
dependency, a second call — with any scanner at all — is a no-op returning
success with the cache unchanged. -/
theorem c3_bridging_header_idempotence :
    (∀ (ctx : ASTContextModel) (api : ClangAPIModel) (scanner : ScannerModel)
       (serviceRemap : String → String) (mid : ModuleDependencyID)
       (cache : ModuleDependenciesCache) (tm : ModuleDependencyInfo)
       (t : TextualModuleDetails),
       cache.findDependency mid = some tm →
       tm.textualDetails = some t →
       (t.bridgingSourceFiles ≠ [] ∨ t.bridgingModuleDependencies ≠ []) →
       addBridgingHeaderDependencies ctx api scanner serviceRemap mid cache =
         some (false, cache)) ∧
    (∀ (ctx : ASTContextModel) (api : ClangAPIModel)
       (scanner scanner2 : ScannerModel) (serviceRemap : String → String)
       (mid : ModuleDependencyID) (cache cache1 : ModuleDependenciesCache)
       (tm : ModuleDependencyInfo) (t : TextualModuleDetails) (hdr : String)
       (cmdArgs : List String) (wd : String) (tudeps : TranslationUnitDeps)
       (bridged : ModuleDependencyVector) (cmd : TUCommand)
       (inv : CompilerInvocationModel),
       cache.findDependency mid = some tm →
       tm.textualDetails = some t →
       t.bridgingSourceFiles = [] →
       t.bridgingModuleDependencies = [] →
       t.bridgingHeaderFile = some hdr →
       getClangDepScanningInvocationArguments ctx (some hdr) =
         some cmdArgs →
       computeClangWorkingDirectory cmdArgs ctx = .ok wd →
       scanner.getTranslationUnitDependencies cmdArgs wd
         cache.alreadySeenClangModules
         (fun MID MOK => moduleCacheRelativeLookupModuleOutput MID MOK
           ctx.moduleCachePathFromClang) = .ok tudeps →
       tudeps.FileDeps ≠ [] →
       bridgeClangModuleDependencies ctx api serviceRemap
         cache.moduleOutputPath tudeps.ModuleGraph = some bridged →
       tudeps.Commands.head? = some cmd →
       api.createFromArgs cmd.Arguments = some inv →
       addBridgingHeaderDependencies ctx api scanner serviceRemap mid cache =
         some (false, cache1) →
       addBridgingHeaderDependencies ctx api scanner2 serviceRemap mid
         cache1 = some (false, cache1)) := by
  constructor
  · exact fun ctx api scanner serviceRemap mid cache tm t h1 h2 h3 =>
      addBridging_early_return ctx api scanner serviceRemap mid cache tm t
        h1 h2 h3
  · intro ctx api scanner scanner2 serviceRemap mid cache cache1 tm t hdr
      cmdArgs wd tudeps bridged cmd inv h1 h2 h3 h4 h5 h6 h7 h8 h9 h10 hcmd
      hparse hfirst
    have hpre : (cache.findDependency mid).isSome = true := by
      rw [h1]
      rfl
    have hrec := findDependency_isSome_record cache bridged mid hpre
    have s2 := textualDetails_fold_addBridgingSourceFile tudeps.FileDeps tm
      t h2
    obtain ⟨t2, ht2, ht2src⟩ :=
      textualDetails_fold_addBridgingModuleDependency_src
        tudeps.ClangModuleDeps _ _ s2
    cases hit : tudeps.IncludeTreeID with
    | none =>
      simp only [addBridgingHeaderDependencies, h1, h2, h3, h4, h5, h6, h7,
        h8, h10, recordBridgingHeaderOptions, hcmd, hparse, hit, ne_eq,
        not_true_eq_false, or_self, if_false, Option.some.injEq,
        Prod.mk.injEq, true_and] at hfirst
      subst hfirst
      refine addBridging_early_return ctx api scanner2 serviceRemap mid _ _
        _ (findDependency_update_eq _ mid _ hrec)
        (textualDetails_updateBridgingHeaderCommandLine_eq _ t2 _ ht2)
        (Or.inl ?_)
      show t2.bridgingSourceFiles ≠ []
      rw [ht2src]
      show t.bridgingSourceFiles ++ tudeps.FileDeps ≠ []
      rw [h3]
      simpa using h9
    | some tree =>
      have ht3 := textualDetails_addBridgingHeaderIncludeTree_eq _ t2 tree
        ht2
      simp only [addBridgingHeaderDependencies, h1, h2, h3, h4, h5, h6, h7,
        h8, h10, recordBridgingHeaderOptions, hcmd, hparse, hit, ne_eq,
        not_true_eq_false, or_self, if_false, Option.some.injEq,
        Prod.mk.injEq, true_and] at hfirst
      subst hfirst
      refine addBridging_early_return ctx api scanner2 serviceRemap mid _ _
        _ (findDependency_update_eq _ mid _ hrec)
        (textualDetails_updateBridgingHeaderCommandLine_eq _
          { t2 with bridgingHeaderIncludeTree := some tree } _ ht3)
        (Or.inl ?_)
      show t2.bridgingSourceFiles ≠ []
      rw [ht2src]
      show t.bridgingSourceFiles ++ tudeps.FileDeps ≠ []
      rw [h3]
      simpa using h9

/-- Witness for C3: a record with a non-empty bridging source-file list is a
no-op for a failing scanner, and a second call after a successful concrete
first scan is a no-op for a failing scanner as well. -/
theorem c3_bridging_header_idempotence_witness :
    addBridgingHeaderDependencies ctx0 api0 scannerErr0 remap0 midA cacheA =
      some (false, cacheA) ∧
    addBridgingHeaderDependencies ctx0 api0 scannerErr0 remap0 midA
      cacheB1 = some (false, cacheB1) :=
  ⟨c3_bridging_header_idempotence.1 ctx0 api0 scannerErr0 remap0 midA cacheA
     tmA
     { bridgingHeaderFile := some "Bridging.h"
       bridgingSourceFiles := ["x.h"]
       bridgingModuleDependencies := []
       bridgingHeaderIncludeTree := none
       bridgingCommandLine := [] }
     (by decide) (by decide) (Or.inl (by decide)),
   c3_bridging_header_idempotence.2 ctx0 api0 scannerTU0 scannerErr0 remap0
     midA cacheB cacheB1 tmB
     { bridgingHeaderFile := some "Bridging.h"
       bridgingSourceFiles := []
       bridgingModuleDependencies := []
       bridgingHeaderIncludeTree := none
       bridgingCommandLine := [] }
     "Bridging.h" cmdArgsB "/cwd" tudeps0 bridged0 ⟨["-tu"]⟩ inv0
     (by decide) (by decide) (by decide) (by decide) (by decide) (by decide)
     (by decide) rfl (by decide) (by decide) (by decide) rfl (by decide)⟩
